import Mathlib

/-!
Verification of the control logic of `Complete_GPS_Bus_Tracker.ino`
(ESP32 GPS bus tracker).  The definitions below are a shallow embedding of
the sketch's global state and of the functions named in the claims:
`isValidGPSData`, `processGPSData`, `checkSpeedLimit`, `checkLocationUpdate`,
`sendSMS`, `sendLocationUpdate`, `processSMSCommand`, `performHealthCheck`,
`sendHealthAlert`, `initializeGSM` and `logError`.

Modelling conventions:
* `millis()` timestamps are natural numbers; 32-bit unsigned subtraction
  `a - b` is modelled by `usub a b` with an explicit `% 2^32`.
* `double` / `float` values (coordinates, speed, HDOP) are modelled as `ℚ`;
  the sketch only compares them, never rounds them, so the comparisons agree.
* Bytes coming back from the GSM modem are modelled as a timed character
  stream `List (Nat × Char)` (arrival offset from the start of the read
  loop, character); the environment `Env` is the queue of response streams,
  one per issued modem command, consumed in order.
* Bytes written to the modem for a message submission are recorded in the
  `outbox` trace field `(recipient, body)`, so "an SMS was sent" is
  observable in the model.
-/

/-- 2^32, the modulus of `unsigned long` arithmetic on the ESP32. -/
def u32Mod : Nat := 4294967296

/-- Unsigned 32-bit subtraction `a - b` as the C expression computes it. -/
def usub (a b : Nat) : Nat := (a % u32Mod + (u32Mod - b % u32Mod)) % u32Mod

theorem usub_eq_sub (a b : Nat) (hba : b ≤ a) (ha : a < u32Mod) :
    usub a b = a - b := by
  have hb : b < u32Mod := lt_of_le_of_lt hba ha
  unfold usub
  rw [Nat.mod_eq_of_lt ha, Nat.mod_eq_of_lt hb]
  have h1 : a + (u32Mod - b) = (a - b) + u32Mod := by omega
  rw [h1, Nat.add_mod_right, Nat.mod_eq_of_lt (by omega)]

/-- `tok.isPrefixOf l` for character lists, written out structurally. -/
def startsWithTok : List Char → List Char → Bool
  | [], _ => true
  | _ :: _, [] => false
  | t :: ts, c :: cs => t == c && startsWithTok ts cs

/-- `resp.indexOf(tok) > -1` of Arduino `String`, i.e. substring search. -/
def containsTok (tok : List Char) : List Char → Bool
  | [] => startsWithTok tok []
  | c :: cs => startsWithTok tok (c :: cs) || containsTok tok cs

/-- `resp.indexOf(tok)` of Arduino `String` as an `Int` (`-1` = not found). -/
def idxOfTok (tok : List Char) : List Char → Int
  | [] => if startsWithTok tok [] then 0 else -1
  | c :: cs =>
    if startsWithTok tok (c :: cs) then 0
    else
      let r := idxOfTok tok cs
      if r = -1 then -1 else r + 1

/-- C++ `!x` on an `int` operand, producing the `int` 0 or 1. -/
def cppNot (x : Int) : Int := if x = 0 then 1 else 0

/-- One record of the `errorHistory` ring buffer (`struct ErrorLog`). -/
structure ErrorRecord where
  errorType : String
  errorMessage : String
  timestamp : Nat
  deriving DecidableEq

instance : Inhabited ErrorRecord := ⟨⟨"", "", 0⟩⟩

/-- A timed modem response stream: (arrival offset, character) pairs in
arrival order. -/
def RespStream : Type := List (Nat × Char)

/-- The queue of modem response streams, one per issued command. -/
def Env : Type := List RespStream

/-- Pop the response stream for the next issued modem command. -/
def popEnv : Env → RespStream × Env
  | [] => ([], [])
  | r :: rest => (r, rest)

/-- The global mutable state of `Complete_GPS_Bus_Tracker.ino` that the
claims touch, plus the `outbox` submission trace and the `eeprom` image. -/
structure SysState where
  gpsFixed : Bool
  gsmReady : Bool
  systemHealthy : Bool
  emergencyMode : Bool
  trackingMode : Bool
  testMode : Bool
  lastSendTime : Nat
  lastHealthCheck : Nat
  lastSpeedAlert : Nat
  bootTime : Nat
  lastGPSRead : Nat
  ledBlinkPattern : Nat
  latitude : ℚ
  longitude : ℚ
  prevLatitude : ℚ
  prevLongitude : ℚ
  altitude : ℚ
  speed : ℚ
  dateTime : String
  satellites : Int
  hdop : ℚ
  totalSMSSent : Nat
  totalErrors : Nat
  gpsFixCount : Nat
  maxSpeed : Nat
  lastError : String
  errorHistory : Nat → ErrorRecord
  errorIndex : Nat
  eeprom : Nat × Nat × Nat
  outbox : List (String × String)

/-- The state right after the global initializers have run. -/
def initState : SysState where
  gpsFixed := false
  gsmReady := false
  systemHealthy := true
  emergencyMode := false
  trackingMode := false
  testMode := false
  lastSendTime := 0
  lastHealthCheck := 0
  lastSpeedAlert := 0
  bootTime := 0
  lastGPSRead := 0
  ledBlinkPattern := 1
  latitude := 0
  longitude := 0
  prevLatitude := 0
  prevLongitude := 0
  altitude := 0
  speed := 0
  dateTime := ""
  satellites := 0
  hdop := 0
  totalSMSSent := 0
  totalErrors := 0
  gpsFixCount := 0
  maxSpeed := 0
  lastError := ""
  errorHistory := fun _ => default
  errorIndex := 0
  eeprom := (0, 0, 0)
  outbox := []

/-- String pieces used by `logError` callers. -/
def sepColon : String := ": "

/-- `logError(errorType, errorMessage)`: increment `totalErrors`, set
`lastError`, store the record at `errorIndex` and advance the ring index
modulo 10. -/
def logError (errorType errorMessage : String) (now : Nat) (s : SysState) :
    SysState :=
  { s with
    totalErrors := s.totalErrors + 1
    lastError := errorType ++ sepColon ++ errorMessage
    errorHistory := fun k =>
      if k = s.errorIndex then ⟨errorType, errorMessage, now⟩
      else s.errorHistory k
    errorIndex := (s.errorIndex + 1) % 10 }

/-- Configuration constants of the sketch. -/
def SPEED_LIMIT : ℚ := 80

/-- `MIN_VALID_SPEED`. -/
def MIN_VALID_SPEED : ℚ := 0

/-- `MAX_VALID_SPEED`. -/
def MAX_VALID_SPEED : ℚ := 200

/-- `MIN_SATELLITES`. -/
def MIN_SATELLITES : Int := 4

/-- `HDOP_THRESHOLD`. -/
def HDOP_THRESHOLD : ℚ := 2

/-- `GPS_TIMEOUT` (180000 ms). -/
def GPS_TIMEOUT : Nat := 180000

/-- `NORMAL_SEND_INTERVAL` (300000 ms). -/
def NORMAL_SEND_INTERVAL : Nat := 300000

/-- `TRACKING_SEND_INTERVAL` (60000 ms). -/
def TRACKING_SEND_INTERVAL : Nat := 60000

/-- `EMERGENCY_INTERVAL` (30000 ms). -/
def EMERGENCY_INTERVAL : Nat := 30000

/-- `HEALTH_CHECK_INTERVAL` (60000 ms). -/
def HEALTH_CHECK_INTERVAL : Nat := 60000

/-- `isValidGPSData()`: reads the already-updated globals and applies the
acceptance predicate in source order. -/
def isValidGPSData (s : SysState) : Bool :=
  if s.latitude = 0 ∧ s.longitude = 0 then false
  else if |s.latitude| > 90 ∨ |s.longitude| > 180 then false
  else if s.speed < MIN_VALID_SPEED ∨ s.speed > MAX_VALID_SPEED then false
  else if s.satellites < MIN_SATELLITES then false
  else if s.hdop > HDOP_THRESHOLD then false
  else true

/-- Identification constants of the sketch. -/
def BUS_ID : String := "BUS-001"

/-- `ROUTE_NAME`. -/
def ROUTE_NAME : String := "Main-Route"

/-- `ADMIN_PHONE`. -/
def ADMIN_PHONE : String := "+91XXXXXXXXXX"

/-- `BACKUP_PHONE`. -/
def BACKUP_PHONE : String := "+91YYYYYYYYYY"

/-- `EMERGENCY_PHONE`. -/
def EMERGENCY_PHONE : String := "+91ZZZZZZZZZZ"

/-- Success token scanned for in modem replies. -/
def okTok : List Char := "OK".toList

/-- Failure token scanned for in modem replies. -/
def errorTok : List Char := "ERROR".toList

/-- SIM readiness token. -/
def readyTok : List Char := "READY".toList

/-- Registration status code `,1`. -/
def reg1Tok : List Char := ",1".toList

/-- Registration status code `,5`. -/
def reg5Tok : List Char := ",5".toList

/-- AT command texts issued by the sketch. -/
def cmdAT : String := "AT"

/-- `ATE0`. -/
def cmdATE0 : String := "ATE0"

/-- `AT+CNMI=1,2,0,0,0`. -/
def cmdCNMI : String := "AT+CNMI=1,2,0,0,0"

/-- `AT+CPIN?`. -/
def cmdCPIN : String := "AT+CPIN?"

/-- `AT+CREG?`. -/
def cmdCREG : String := "AT+CREG?"

/-- `AT+CMGF=1`. -/
def cmdCMGF : String := "AT+CMGF=1"

/-- `AT+CSCS="GSM"`. -/
def cmdCSCS : String := "AT+CSCS=\"GSM\""

/-- `AT+CSQ`. -/
def cmdCSQ : String := "AT+CSQ"

/-- `sendATCommand(command, timeout)`: write the command, then accumulate
every byte that arrives before the timeout; no early exit. -/
def sendATCommand (command : String) (timeout : Nat) (env : Env) :
    List Char × Env :=
  let _ := command
  ((((popEnv env).1.filter (fun p => p.1 < timeout)).map (fun p => p.2)),
   (popEnv env).2)

/-- `testGSMConnection()`: probe with `AT` (1 s) and look for `OK`. -/
def testGSMConnection (env : Env) : Bool × Env :=
  (containsTok okTok (sendATCommand cmdAT 1000 env).1,
   (sendATCommand cmdAT 1000 env).2)

/-- Classification of the final response of one message submission. -/
inductive SmsOutcome where
  | ok : SmsOutcome
  | fail : List Char → SmsOutcome
  | timeout : SmsOutcome
  deriving DecidableEq

/-- The `sendSMS` response loop: accumulate bytes arriving before the
deadline, checking after each byte for `OK` first, then `ERROR`; if the
deadline passes with neither token the attempt is a timeout. -/
def smsClassify (deadline : Nat) (acc : List Char) :
    List (Nat × Char) → SmsOutcome
  | [] => .timeout
  | (t, c) :: rest =>
    if t < deadline then
      let acc' := acc ++ [c]
      if containsTok okTok acc' then .ok
      else if containsTok errorTok acc' then .fail acc'
      else smsClassify deadline acc' rest
    else .timeout

/-- Error classification strings used with `logError`. -/
def errTypeGPS : String := "GPS"

/-- `"SMS"`. -/
def errTypeSMS : String := "SMS"

/-- `"GSM"`. -/
def errTypeGSM : String := "GSM"

/-- `"Invalid GPS data received"`. -/
def errMsgInvalidGPS : String := "Invalid GPS data received"

/-- `"GPS signal lost"`. -/
def errMsgSignalLost : String := "GPS signal lost"

/-- `"GPS timeout - no fix acquired"`. -/
def errMsgGpsTimeout : String := "GPS timeout - no fix acquired"

/-- `"GSM not ready for SMS"`. -/
def errMsgSmsNotReady : String := "GSM not ready for SMS"

/-- `"Send failed: "` prefix. -/
def errMsgSendFailedPre : String := "Send failed: "

/-- `"Send timeout"`. -/
def errMsgSendTimeout : String := "Send timeout"

/-- `"Failed to send location update"`. -/
def errMsgLocFailed : String := "Failed to send location update"

/-- `"No response to AT command"`. -/
def errMsgNoATResponse : String := "No response to AT command"

/-- `"SIM card not ready: "` prefix. -/
def errMsgSimNotReadyPre : String := "SIM card not ready: "

/-- `"Network registration failed"`. -/
def errMsgRegFailed : String := "Network registration failed"

/-- `sendSMS(phoneNumber, message)`: abort if the modem is not ready;
otherwise write the submission (recorded in `outbox`) and classify the
final response within 15000 ms.  An `ERROR` response or a timeout logs one
SMS error; the function never retries. -/
def sendSMS (phoneNumber message : String) (now : Nat) (env : Env)
    (s : SysState) : Bool × SysState × Env :=
  if !s.gsmReady then (false, logError errTypeSMS errMsgSmsNotReady now s, env)
  else
    let s1 := { s with outbox := s.outbox ++ [(phoneNumber, message)] }
    match smsClassify 15000 [] (popEnv env).1 with
    | .ok => (true, s1, (popEnv env).2)
    | .fail resp =>
      (false, logError errTypeSMS (errMsgSendFailedPre ++ String.mk resp) now s1,
       (popEnv env).2)
    | .timeout =>
      (false, logError errTypeSMS errMsgSendTimeout now s1, (popEnv env).2)

/-- Small string constants used while formatting. -/
def strZero : String := "0"

/-- `"."`. -/
def strDot : String := "."

/-- `"-"`. -/
def strMinus : String := "-"

/-- `"/"`. -/
def strSlash : String := "/"

/-- `":"`. -/
def strColon : String := ":"

/-- `","`. -/
def strComma : String := ","

/-- `"\n"`. -/
def strNl : String := "\n"

/-- `" "`. -/
def strSpace : String := " "

/-- Empty string. -/
def strEmpty : String := ""

/-- Decimal digits of `n` left-padded with zeros to width `d`. -/
def padNum (d n : Nat) : String := (toString ((10 : Nat) ^ d + n)).drop 1

/-- Arduino `String(double, decimals)`: fixed-point decimal rendering. -/
def fmtFloat (q : ℚ) (d : Nat) : String :=
  let m : Int := round (|q| * (10 : ℚ) ^ d)
  let mp : Nat := m.toNat
  let ip : Nat := mp / 10 ^ d
  let fp : Nat := mp % 10 ^ d
  let core := if d = 0 then toString ip else toString ip ++ strDot ++ padNum d fp
  if q < 0 then strMinus ++ core else core

/-- `formatNumber(int)`: two-digit zero padding. -/
def formatNumber (n : Int) : String :=
  if n < 10 then strZero ++ toString n else toString n

/-- One raw decoded GPS sample: the values `processGPSData` copies out of
the `TinyGPSPlus` object when a sentence with valid location/date/time
completes. -/
structure GPSSample where
  lat : ℚ
  lng : ℚ
  alt : ℚ
  speedKmh : ℚ
  sats : Int
  hdop : ℚ
  day : Int
  month : Int
  year : Int
  hour : Int
  minute : Int
  second : Int
  deriving DecidableEq

/-- `formatDateTime()` applied to the sample's date/time fields. -/
def formatDateTime (g : GPSSample) : String :=
  formatNumber g.day ++ strSlash ++ formatNumber g.month ++ strSlash ++
  toString g.year ++ strSpace ++ formatNumber g.hour ++ strColon ++
  formatNumber g.minute ++ strColon ++ formatNumber g.second

/-- `formatUptime(milliseconds)`. -/
def formatUptime (milliseconds : Nat) : String :=
  let seconds := milliseconds / 1000
  let minutes := seconds / 60
  let hours := minutes / 60
  let days := hours / 24
  (if days > 0 then toString days ++ "d " else strEmpty) ++
  (if hours > 0 then toString (hours % 24) ++ "h " else strEmpty) ++
  (if minutes > 0 then toString (minutes % 60) ++ "m " else strEmpty) ++
  toString (seconds % 60) ++ "s"

/-- Literal pieces of the location-update message. -/
def msgLocSep : String := " - "

/-- `"📍 Location: "`. -/
def msgLocLoc : String := "📍 Location: "

/-- `"🚌 Speed: "`. -/
def msgLocSpeed : String := "🚌 Speed: "

/-- `" km/h\n"`. -/
def msgKmhNl : String := " km/h\n"

/-- `"⛰️ Altitude: "`. -/
def msgLocAlt : String := "⛰️ Altitude: "

/-- `"m\n"`. -/
def msgMeterNl : String := "m\n"

/-- `"🛰️ Satellites: "`. -/
def msgLocSats : String := "🛰️ Satellites: "

/-- `"📅 Time: "`. -/
def msgLocTime : String := "📅 Time: "

/-- `"🚨 EMERGENCY MODE ACTIVE 🚨\n"`. -/
def msgEmergencyLine : String := "🚨 EMERGENCY MODE ACTIVE 🚨\n"

/-- `"📊 Enhanced tracking enabled\n"`. -/
def msgTrackingLine : String := "📊 Enhanced tracking enabled\n"

/-- `"🗺️ Map: https://maps.google.com/?q="`. -/
def msgLocMap : String := "🗺️ Map: https://maps.google.com/?q="

/-- The body built by `sendLocationUpdate` from the current globals. -/
def locationMessage (s : SysState) : String :=
  BUS_ID ++ msgLocSep ++ ROUTE_NAME ++ strNl ++
  msgLocLoc ++ fmtFloat s.latitude 6 ++ strComma ++ fmtFloat s.longitude 6 ++ strNl ++
  msgLocSpeed ++ fmtFloat s.speed 1 ++ msgKmhNl ++
  msgLocAlt ++ fmtFloat s.altitude 0 ++ msgMeterNl ++
  msgLocSats ++ toString s.satellites ++ strNl ++
  msgLocTime ++ s.dateTime ++ strNl ++
  (if s.emergencyMode then msgEmergencyLine else strEmpty) ++
  (if s.trackingMode then msgTrackingLine else strEmpty) ++
  msgLocMap ++ fmtFloat s.latitude 6 ++ strComma ++ fmtFloat s.longitude 6

/-- `sendLocationUpdate(reason)`: build the report, submit it, count a
success in `totalSMSSent`, log an SMS error on failure. -/
def sendLocationUpdate (reason : String) (now : Nat) (env : Env)
    (s : SysState) : SysState × Env :=
  let _ := reason
  let p := sendSMS ADMIN_PHONE (locationMessage s) now env s
  if p.1 then ({ p.2.1 with totalSMSSent := p.2.1.totalSMSSent + 1 }, p.2.2)
  else (logError errTypeSMS errMsgLocFailed now p.2.1, p.2.2)

/-- Literal pieces of the speed-alert message. -/
def msgSpeedHead : String := "⚠️ SPEED ALERT ⚠️\n"

/-- `"Bus: "`. -/
def msgBusPre : String := "Bus: "

/-- `"Speed: "`. -/
def msgSpeedPre : String := "Speed: "

/-- `"Limit: "`. -/
def msgLimitPre : String := "Limit: "

/-- `"Location: "`. -/
def msgLocationPre : String := "Location: "

/-- `"Time: "`. -/
def msgTimePre : String := "Time: "

/-- The body built by `checkSpeedLimit` for a speed alert. -/
def speedAlertMessage (s : SysState) : String :=
  msgSpeedHead ++
  msgBusPre ++ BUS_ID ++ strNl ++
  msgSpeedPre ++ fmtFloat s.speed 1 ++ msgKmhNl ++
  msgLimitPre ++ fmtFloat SPEED_LIMIT 1 ++ msgKmhNl ++
  msgLocationPre ++ fmtFloat s.latitude 6 ++ strComma ++ fmtFloat s.longitude 6 ++ strNl ++
  msgTimePre ++ s.dateTime

/-- `checkSpeedLimit()`: when the current speed exceeds the limit and at
least 60000 ms have passed since `lastSpeedAlert`, stamp the debounce
timestamp and (modem permitting) submit one speed alert. -/
def checkSpeedLimit (now : Nat) (env : Env) (s : SysState) : SysState × Env :=
  if s.speed > SPEED_LIMIT then
    if usub now s.lastSpeedAlert ≥ 60000 then
      let s1 := { s with lastSpeedAlert := now }
      if s1.gsmReady then
        let p := sendSMS ADMIN_PHONE (speedAlertMessage s1) now env s1
        (p.2.1, p.2.2)
      else (s1, env)
    else (s, env)
  else (s, env)

/-- `"GPS fix acquired"`. -/
def reasonFixAcquired : String := "GPS fix acquired"

/-- `"Scheduled update"`. -/
def reasonScheduled : String := "Scheduled update"

/-- `"Manual request"`. -/
def reasonManual : String := "Manual request"

/-- Overwrite the current-fix globals with a raw sample's values, keeping
the previous position, exactly as `processGPSData` does before calling
`isValidGPSData`. -/
def updateFix (g : GPSSample) (s : SysState) : SysState :=
  { s with
    prevLatitude := s.latitude
    prevLongitude := s.longitude
    latitude := g.lat
    longitude := g.lng
    altitude := g.alt
    speed := g.speedKmh
    satellites := g.sats
    hdop := g.hdop }

/-- The body `processGPSData` runs for one completed sentence whose
location/date/time are valid: copy the fields, validate, and on acceptance
format the timestamp, handle the first-fix transition, track the maximum
speed and evaluate the speed alert; on rejection log one GPS error. -/
def processSample (now : Nat) (g : GPSSample) (env : Env) (s : SysState) :
    SysState × Env :=
  let s1 := updateFix g s
  if isValidGPSData s1 then
    let s2 := { s1 with dateTime := formatDateTime g }
    let p3 :=
      if !s2.gpsFixed then
        let sf := { s2 with
          gpsFixed := true
          gpsFixCount := s2.gpsFixCount + 1
          ledBlinkPattern := 0 }
        if sf.gsmReady then
          let q := sendLocationUpdate reasonFixAcquired now env sf
          ({ q.1 with lastSendTime := now }, q.2)
        else (sf, env)
      else (s2, env)
    let s4 :=
      if p3.1.speed > (p3.1.maxSpeed : ℚ) then
        { p3.1 with maxSpeed := (⌊p3.1.speed⌋).toNat }
      else p3.1
    checkSpeedLimit now p3.2 s4
  else (logError errTypeGPS errMsgInvalidGPS now s1, env)

/-- One call of `processGPSData()`: the serial loop delivers a list of
completed sentences (timestamped; `none` = sentence without a valid
location/date/time triple, `some g` = a raw sample), each of which
refreshes `lastGPSRead`; afterwards the fix-lost and acquisition-timeout
checks run at time `nowEnd`. -/
def processGPSData (events : List (Nat × Option GPSSample)) (nowEnd : Nat)
    (env : Env) (s : SysState) : SysState × Env :=
  let step := fun (p : SysState × Env) (e : Nat × Option GPSSample) =>
    let s' := { p.1 with lastGPSRead := e.1 }
    match e.2 with
    | none => (s', p.2)
    | some g => processSample e.1 g p.2 s'
  let p1 := events.foldl step (s, env)
  let s1 := p1.1
  let s2 :=
    if s1.gpsFixed ∧ usub nowEnd s1.lastGPSRead > 30000 then
      logError errTypeGPS errMsgSignalLost nowEnd
        { s1 with gpsFixed := false, ledBlinkPattern := 2 }
    else s1
  let s3 :=
    if ¬s2.gpsFixed ∧ nowEnd > GPS_TIMEOUT then
      logError errTypeGPS errMsgGpsTimeout nowEnd
        { s2 with ledBlinkPattern := 2 }
    else s2
  (s3, p1.2)

/-- The interval selection at the top of `checkLocationUpdate()`. -/
def codeInterval (emergencyMode trackingMode : Bool) : Nat :=
  if emergencyMode then EMERGENCY_INTERVAL
  else if trackingMode then TRACKING_SEND_INTERVAL
  else NORMAL_SEND_INTERVAL

/-- `checkLocationUpdate()`: pick the interval from the mode flags and send
a scheduled report when due, a fix is held and the modem is ready. -/
def checkLocationUpdate (now : Nat) (env : Env) (s : SysState) :
    SysState × Env :=
  let interval := codeInterval s.emergencyMode s.trackingMode
  if s.gpsFixed ∧ s.gsmReady ∧ usub now s.lastSendTime ≥ interval then
    let p := sendLocationUpdate reasonScheduled now env s
    ({ p.1 with lastSendTime := now }, p.2)
  else (s, env)

/-- The spec-level operating mode. -/
inductive Mode where
  | normal : Mode
  | tracking : Mode
  | emergency : Mode
  deriving DecidableEq

/-- The mode denoted by the two flags, emergency taking precedence. -/
def modeOf (emergencyMode trackingMode : Bool) : Mode :=
  if emergencyMode then .emergency
  else if trackingMode then .tracking
  else .normal

/-- The spec's `interval(mode)` function. -/
def intervalOfMode : Mode → Nat
  | .normal => 300000
  | .tracking => 60000
  | .emergency => 30000

/-- Literal pieces of the health-alert message. -/
def msgHealthHead : String := "⚠️ SYSTEM HEALTH ALERT ⚠️\n"

/-- `"Issue detected:\n"`. -/
def msgIssueDetected : String := "Issue detected:\n"

/-- `"❌ GPS signal lost\n"`. -/
def msgGpsLostLine : String := "❌ GPS signal lost\n"

/-- `"❌ GSM connection lost\n"`. -/
def msgGsmLostLine : String := "❌ GSM connection lost\n"

/-- `"Last error: "`. -/
def msgLastErrorPre : String := "Last error: "

/-- `"Automatic recovery in progress..."`. -/
def msgRecovery : String := "Automatic recovery in progress..."

/-- The body built by `sendHealthAlert` from the current globals: fixed
header, one line per failed subsystem, the most recent logged error and the
timestamp. -/
def healthAlertMessage (s : SysState) : String :=
  msgHealthHead ++
  msgBusPre ++ BUS_ID ++ strNl ++
  msgIssueDetected ++
  (if !s.gpsFixed then msgGpsLostLine else strEmpty) ++
  (if !s.gsmReady then msgGsmLostLine else strEmpty) ++
  msgLastErrorPre ++ s.lastError ++ strNl ++
  msgTimePre ++ s.dateTime ++ strNl ++
  msgRecovery

/-- `sendHealthAlert()`: build the alert once and submit it to the admin
number and, because `BACKUP_PHONE` is longer than 5 characters, to the
backup number as well. -/
def sendHealthAlert (now : Nat) (env : Env) (s : SysState) : SysState × Env :=
  let m := healthAlertMessage s
  let p1 := sendSMS ADMIN_PHONE m now env s
  if BACKUP_PHONE.length > 5 then
    let p2 := sendSMS BACKUP_PHONE m now p1.2.2 p1.2.1
    (p2.2.1, p2.2.2)
  else (p1.2.1, p1.2.2)

/-- `saveSystemStats()`: persist the three counters to the EEPROM image. -/
def saveSystemStats (s : SysState) : SysState :=
  { s with eeprom := (s.totalSMSSent, s.totalErrors, s.maxSpeed) }

/-- `performHealthCheck()`: on the 60 s tick, recompute the two subsystem
verdicts and the overall one, send a health alert whenever unhealthy and
the modem is ready, and persist the statistics. -/
def performHealthCheck (now : Nat) (env : Env) (s : SysState) :
    SysState × Env :=
  if usub now s.lastHealthCheck ≥ HEALTH_CHECK_INTERVAL then
    let s1 := { s with lastHealthCheck := now }
    let gpsHealthy := s1.gpsFixed && decide (s1.satellites ≥ MIN_SATELLITES)
    let pg := testGSMConnection env
    let s2 := { s1 with systemHealthy := gpsHealthy && pg.1 }
    let p3 :=
      if !s2.systemHealthy && s2.gsmReady then sendHealthAlert now pg.2 s2
      else (s2, pg.2)
    (saveSystemStats p3.1, p3.2)
  else (s, env)

/-- Command verbs matched (after upper-casing) by `processSMSCommand`. -/
def trackOnTok : List Char := "TRACK ON".toList

/-- `"TRACK OFF"`. -/
def trackOffTok : List Char := "TRACK OFF".toList

/-- `"EMERGENCY OFF"`. -/
def emergencyOffTok : List Char := "EMERGENCY OFF".toList

/-- `"STATUS"`. -/
def statusTok : List Char := "STATUS".toList

/-- `"LOCATION"`. -/
def locationTok : List Char := "LOCATION".toList

/-- `"REBOOT"`. -/
def rebootTok : List Char := "REBOOT".toList

/-- `"TEST"`. -/
def testTok : List Char := "TEST".toList

/-- `"HELP"`. -/
def helpTok : List Char := "HELP".toList

/-- Acknowledgement message prefixes sent by `processSMSCommand`. -/
def msgAckTrackOn : String := "✅ Enhanced tracking enabled for "

/-- `"✅ Enhanced tracking disabled for "`. -/
def msgAckTrackOff : String := "✅ Enhanced tracking disabled for "

/-- `"✅ Emergency mode disabled for "`. -/
def msgAckEmergencyOff : String := "✅ Emergency mode disabled for "

/-- `"❌ GPS not fixed. Location unavailable for "`. -/
def msgNoFixPre : String := "❌ GPS not fixed. Location unavailable for "

/-- `"🔄 Rebooting system for "`. -/
def msgAckReboot : String := "🔄 Rebooting system for "

/-- Literal pieces of the system-status message. -/
def msgStatusHead : String := "📊 System Status - "

/-- `"GPS: "`. -/
def msgGpsPre : String := "GPS: "

/-- `"✅ Fixed"`. -/
def msgGpsFixed : String := "✅ Fixed"

/-- `"❌ No Fix"`. -/
def msgGpsNoFix : String := "❌ No Fix"

/-- `"GSM: "`. -/
def msgGsmPre : String := "GSM: "

/-- `"✅ Ready"`. -/
def msgGsmReady : String := "✅ Ready"

/-- `"❌ Error"`. -/
def msgGsmError : String := "❌ Error"

/-- `"Health: "`. -/
def msgHealthPre : String := "Health: "

/-- `"✅ Good"`. -/
def msgHealthGood : String := "✅ Good"

/-- `"⚠️ Poor"`. -/
def msgHealthPoor : String := "⚠️ Poor"

/-- `"Emergency: "`. -/
def msgEmergencyPre : String := "Emergency: "

/-- `"🚨 ACTIVE"`. -/
def msgEmergencyActive : String := "🚨 ACTIVE"

/-- `"✅ Normal"`. -/
def msgEmergencyNormal : String := "✅ Normal"

/-- `"Tracking: "`. -/
def msgTrackingPre : String := "Tracking: "

/-- `"📍 Enhanced"`. -/
def msgTrackingEnhanced : String := "📍 Enhanced"

/-- `"📍 Normal"`. -/
def msgTrackingNormal : String := "📍 Normal"

/-- `"Satellites: "`. -/
def msgSatsPre : String := "Satellites: "

/-- `"Max Speed: "`. -/
def msgMaxSpeedPre : String := "Max Speed: "

/-- `" km/h\n"` follows the max speed too; `"SMS Sent: "`. -/
def msgSmsSentPre : String := "SMS Sent: "

/-- `"Errors: "`. -/
def msgErrorsPre : String := "Errors: "

/-- `"Uptime: "`. -/
def msgUptimePre : String := "Uptime: "

/-- The body built by `sendSystemStatus` from the current globals. -/
def systemStatusMessage (now : Nat) (s : SysState) : String :=
  msgStatusHead ++ BUS_ID ++ strNl ++
  msgGpsPre ++ (if s.gpsFixed then msgGpsFixed else msgGpsNoFix) ++ strNl ++
  msgGsmPre ++ (if s.gsmReady then msgGsmReady else msgGsmError) ++ strNl ++
  msgHealthPre ++ (if s.systemHealthy then msgHealthGood else msgHealthPoor) ++ strNl ++
  msgEmergencyPre ++ (if s.emergencyMode then msgEmergencyActive else msgEmergencyNormal) ++ strNl ++
  msgTrackingPre ++ (if s.trackingMode then msgTrackingEnhanced else msgTrackingNormal) ++ strNl ++
  (if s.gpsFixed then
    msgSpeedPre ++ fmtFloat s.speed 1 ++ msgKmhNl ++
    msgSatsPre ++ toString s.satellites ++ strNl ++
    msgMaxSpeedPre ++ toString s.maxSpeed ++ msgKmhNl
   else strEmpty) ++
  msgSmsSentPre ++ toString s.totalSMSSent ++ strNl ++
  msgErrorsPre ++ toString s.totalErrors ++ strNl ++
  msgUptimePre ++ formatUptime (usub now s.bootTime)

/-- `sendSystemStatus()`. -/
def sendSystemStatus (now : Nat) (env : Env) (s : SysState) :
    SysState × Env :=
  let p := sendSMS ADMIN_PHONE (systemStatusMessage now s) now env s
  (p.2.1, p.2.2)

/-- Head of the help message. -/
def msgHelpHead : String := "📱 Bus Tracker Commands - "

/-- Remainder of the help message after the bus id (literal lines only). -/
def msgHelpBody : String :=
  "\n\nTRACK ON - Enhanced tracking (1min updates)\nTRACK OFF - Normal tracking (5min updates)\nSTATUS - Get detailed system status\nLOCATION - Get current GPS location\nEMERGENCY OFF - Disable emergency mode\nTEST - Run system diagnostics\nREBOOT - Restart the system\nHELP - Show this message\n\nEmergency mode activates automatically if issues detected."

/-- `sendHelpMessage()`. -/
def sendHelpMessage (now : Nat) (env : Env) (s : SysState) :
    SysState × Env :=
  let p := sendSMS ADMIN_PHONE (msgHelpHead ++ BUS_ID ++ msgHelpBody) now env s
  (p.2.1, p.2.2)

/-- Literal pieces of the self-test message. -/
def msgTestHead : String := "🧪 System Test - "

/-- `"All systems tested at "`. -/
def msgTestedAt : String := "All systems tested at "

/-- `"✅ OK"`. -/
def msgOkMark : String := "✅ OK"

/-- `"❌ FAIL"`. -/
def msgFailMark : String := "❌ FAIL"

/-- `"Test completed successfully."`. -/
def msgTestDone : String := "Test completed successfully."

/-- The body built by `runSystemTest` for the test SMS. -/
def testMessage (s : SysState) : String :=
  msgTestHead ++ BUS_ID ++ strNl ++
  msgTestedAt ++ s.dateTime ++ strNl ++
  msgGpsPre ++ (if s.gpsFixed then msgOkMark else msgFailMark) ++ strNl ++
  msgGsmPre ++ (if s.gsmReady then msgOkMark else msgFailMark) ++ strNl ++
  msgTestDone

/-- `testGSMModule()`: issue `AT`; if it answers `OK`, also query the SIM,
the registration status and the signal strength.  Only the modem channel is
consumed; no globals change. -/
def testGSMModule (env : Env) : Env :=
  let p1 := sendATCommand cmdAT 2000 env
  if containsTok okTok p1.1 then
    let e2 := (sendATCommand cmdCPIN 3000 p1.2).2
    let e3 := (sendATCommand cmdCREG 3000 e2).2
    (sendATCommand cmdCSQ 2000 e3).2
  else p1.2

/-- `runSystemTest()`: the hardware and GPS tests only read pins and the
GPS serial port; the GSM test issues AT commands; finally a test SMS is
submitted when the modem is ready. -/
def runSystemTest (now : Nat) (env : Env) (s : SysState) : SysState × Env :=
  let s1 := { s with testMode := true }
  let env1 := testGSMModule env
  let p2 :=
    if s1.gsmReady then
      let q := sendSMS ADMIN_PHONE (testMessage s1) now env1 s1
      (q.2.1, q.2.2)
    else (s1, env1)
  ({ p2.1 with testMode := false }, p2.2)

/-- Result of `processSMSCommand`: the new state, the remaining
environment, whether `ESP.restart()` was reached, and the index passed to
`AT+CMGD` when the deletion step ran. -/
structure CmdResult where
  state : SysState
  env : Env
  restarted : Bool
  deleted : Option Nat

/-- Upper-casing performed by `response.toUpperCase()`. -/
def toUpperTok (cs : List Char) : List Char := cs.map Char.toUpper

/-- `processSMSCommand(messageIndex)`: retrieve the message with
`AT+CMGR` (accumulating the reply for 5 s), upper-case it, run the
first-match verb chain, and finally delete the message with `AT+CMGD` —
except that the `REBOOT` branch calls `ESP.restart()` and never reaches
the deletion. -/
def processSMSCommand (messageIndex : Nat) (now : Nat) (env : Env)
    (s : SysState) : CmdResult :=
  let pr := popEnv env
  let response := toUpperTok ((pr.1.filter (fun p => p.1 < 5000)).map (fun p => p.2))
  let env0 := pr.2
  if containsTok trackOnTok response then
    let s1 := { s with trackingMode := true }
    let p := sendSMS ADMIN_PHONE (msgAckTrackOn ++ BUS_ID) now env0 s1
    ⟨p.2.1, p.2.2, false, some messageIndex⟩
  else if containsTok trackOffTok response then
    let s1 := { s with trackingMode := false }
    let p := sendSMS ADMIN_PHONE (msgAckTrackOff ++ BUS_ID) now env0 s1
    ⟨p.2.1, p.2.2, false, some messageIndex⟩
  else if containsTok emergencyOffTok response then
    let s1 := { s with
      emergencyMode := false
      ledBlinkPattern := if s.gpsFixed then 0 else 1 }
    let p := sendSMS ADMIN_PHONE (msgAckEmergencyOff ++ BUS_ID) now env0 s1
    ⟨p.2.1, p.2.2, false, some messageIndex⟩
  else if containsTok statusTok response then
    let p := sendSystemStatus now env0 s
    ⟨p.1, p.2, false, some messageIndex⟩
  else if containsTok locationTok response then
    if s.gpsFixed then
      let p := sendLocationUpdate reasonManual now env0 s
      ⟨p.1, p.2, false, some messageIndex⟩
    else
      let p := sendSMS ADMIN_PHONE (msgNoFixPre ++ BUS_ID) now env0 s
      ⟨p.2.1, p.2.2, false, some messageIndex⟩
  else if containsTok rebootTok response then
    let p := sendSMS ADMIN_PHONE (msgAckReboot ++ BUS_ID) now env0 s
    ⟨p.2.1, p.2.2, true, none⟩
  else if containsTok testTok response then
    let p := runSystemTest now env0 s
    ⟨p.1, p.2, false, some messageIndex⟩
  else if containsTok helpTok response then
    let p := sendHelpMessage now env0 s
    ⟨p.1, p.2, false, some messageIndex⟩
  else ⟨s, env0, false, some messageIndex⟩

/-- The upper-cased text `processSMSCommand` matches against, recovered
from the retrieved message's response stream. -/
def cmdText (env : Env) : List Char :=
  toUpperTok (((popEnv env).1.filter (fun p => p.1 < 5000)).map (fun p => p.2))

/-- The `REBOOT` branch is selected: the body matches none of the earlier
verbs and contains `REBOOT`. -/
def selectsReboot (response : List Char) : Bool :=
  !containsTok trackOnTok response &&
  !containsTok trackOffTok response &&
  !containsTok emergencyOffTok response &&
  !containsTok statusTok response &&
  !containsTok locationTok response &&
  containsTok rebootTok response

/-- The `EMERGENCY OFF` branch is selected. -/
def selectsEmergencyOff (response : List Char) : Bool :=
  !containsTok trackOnTok response &&
  !containsTok trackOffTok response &&
  containsTok emergencyOffTok response

/-- The network-registration polling loop of `initializeGSM` (up to 30
attempts of `AT+CREG?`, accepting status `,1` or `,5`). -/
def regLoop : Nat → Env → SysState → SysState × Env
  | 0, env, s => (s, env)
  | n + 1, env, s =>
    let p := sendATCommand cmdCREG 3000 env
    if containsTok reg1Tok p.1 ∨ containsTok reg5Tok p.1 then
      ({ s with gsmReady := true }, p.2)
    else regLoop n p.2 s

/-- `initializeGSM()`: reset, liveness probe, echo off, notifications on,
SIM readiness, registration polling, text mode, character set.  The probe
test is the source's `!sendATCommand("AT", 2000).indexOf("OK") > -1`,
modelled token for token (`cppNot` before the comparison, as C++ parses
it). -/
def initializeGSM (now : Nat) (env : Env) (s : SysState) :
    Bool × SysState × Env :=
  let p1 := sendATCommand cmdAT 2000 env
  if cppNot (idxOfTok okTok p1.1) > -1 then
    (false, logError errTypeGSM errMsgNoATResponse now s, p1.2)
  else
    let e2 := (sendATCommand cmdATE0 2000 p1.2).2
    let e3 := (sendATCommand cmdCNMI 2000 e2).2
    let p4 := sendATCommand cmdCPIN 5000 e3
    if !containsTok readyTok p4.1 then
      (false, logError errTypeGSM (errMsgSimNotReadyPre ++ String.mk p4.1) now s, p4.2)
    else
      let p5 := regLoop 30 p4.2 s
      if !p5.1.gsmReady then
        (false, logError errTypeGSM errMsgRegFailed now p5.1, p5.2)
      else
        let e6 := (sendATCommand cmdCMGF 2000 p5.2).2
        let e7 := (sendATCommand cmdCSCS 2000 e6).2
        let e8 := (sendATCommand cmdCSQ 2000 e7).2
        (true, p5.1, e8)

@[simp] theorem logError_gpsFixed (t m : String) (now : Nat) (s : SysState) :
    (logError t m now s).gpsFixed = s.gpsFixed := rfl

@[simp] theorem logError_gsmReady (t m : String) (now : Nat) (s : SysState) :
    (logError t m now s).gsmReady = s.gsmReady := rfl

@[simp] theorem logError_emergencyMode (t m : String) (now : Nat) (s : SysState) :
    (logError t m now s).emergencyMode = s.emergencyMode := rfl

@[simp] theorem logError_trackingMode (t m : String) (now : Nat) (s : SysState) :
    (logError t m now s).trackingMode = s.trackingMode := rfl

@[simp] theorem logError_lastSendTime (t m : String) (now : Nat) (s : SysState) :
    (logError t m now s).lastSendTime = s.lastSendTime := rfl

@[simp] theorem logError_lastSpeedAlert (t m : String) (now : Nat) (s : SysState) :
    (logError t m now s).lastSpeedAlert = s.lastSpeedAlert := rfl

@[simp] theorem logError_speed (t m : String) (now : Nat) (s : SysState) :
    (logError t m now s).speed = s.speed := rfl

@[simp] theorem logError_outbox (t m : String) (now : Nat) (s : SysState) :
    (logError t m now s).outbox = s.outbox := rfl

@[simp] theorem logError_totalSMSSent (t m : String) (now : Nat) (s : SysState) :
    (logError t m now s).totalSMSSent = s.totalSMSSent := rfl

@[simp] theorem logError_totalErrors (t m : String) (now : Nat) (s : SysState) :
    (logError t m now s).totalErrors = s.totalErrors + 1 := rfl

theorem sendSMS_snd_gpsFixed (p m : String) (now : Nat) (env : Env) (s : SysState) :
    (sendSMS p m now env s).2.1.gpsFixed = s.gpsFixed := by
  unfold sendSMS
  split
  · rfl
  · cases smsClassify 15000 [] (popEnv env).1 <;> rfl

theorem sendSMS_snd_gsmReady (p m : String) (now : Nat) (env : Env) (s : SysState) :
    (sendSMS p m now env s).2.1.gsmReady = s.gsmReady := by
  unfold sendSMS
  split
  · rfl
  · cases smsClassify 15000 [] (popEnv env).1 <;> rfl

theorem sendSMS_snd_emergencyMode (p m : String) (now : Nat) (env : Env) (s : SysState) :
    (sendSMS p m now env s).2.1.emergencyMode = s.emergencyMode := by
  unfold sendSMS
  split
  · rfl
  · cases smsClassify 15000 [] (popEnv env).1 <;> rfl

theorem sendSMS_snd_trackingMode (p m : String) (now : Nat) (env : Env) (s : SysState) :
    (sendSMS p m now env s).2.1.trackingMode = s.trackingMode := by
  unfold sendSMS
  split
  · rfl
  · cases smsClassify 15000 [] (popEnv env).1 <;> rfl

theorem sendSMS_snd_lastSendTime (p m : String) (now : Nat) (env : Env) (s : SysState) :
    (sendSMS p m now env s).2.1.lastSendTime = s.lastSendTime := by
  unfold sendSMS
  split
  · rfl
  · cases smsClassify 15000 [] (popEnv env).1 <;> rfl

theorem sendSMS_snd_lastSpeedAlert (p m : String) (now : Nat) (env : Env) (s : SysState) :
    (sendSMS p m now env s).2.1.lastSpeedAlert = s.lastSpeedAlert := by
  unfold sendSMS
  split
  · rfl
  · cases smsClassify 15000 [] (popEnv env).1 <;> rfl

theorem sendSMS_snd_lastHealthCheck (p m : String) (now : Nat) (env : Env) (s : SysState) :
    (sendSMS p m now env s).2.1.lastHealthCheck = s.lastHealthCheck := by
  unfold sendSMS
  split
  · rfl
  · cases smsClassify 15000 [] (popEnv env).1 <;> rfl

theorem sendSMS_snd_systemHealthy (p m : String) (now : Nat) (env : Env) (s : SysState) :
    (sendSMS p m now env s).2.1.systemHealthy = s.systemHealthy := by
  unfold sendSMS
  split
  · rfl
  · cases smsClassify 15000 [] (popEnv env).1 <;> rfl

theorem sendSMS_snd_speed (p m : String) (now : Nat) (env : Env) (s : SysState) :
    (sendSMS p m now env s).2.1.speed = s.speed := by
  unfold sendSMS
  split
  · rfl
  · cases smsClassify 15000 [] (popEnv env).1 <;> rfl

theorem sendSMS_snd_latitude (p m : String) (now : Nat) (env : Env) (s : SysState) :
    (sendSMS p m now env s).2.1.latitude = s.latitude := by
  unfold sendSMS
  split
  · rfl
  · cases smsClassify 15000 [] (popEnv env).1 <;> rfl

theorem sendSMS_snd_longitude (p m : String) (now : Nat) (env : Env) (s : SysState) :
    (sendSMS p m now env s).2.1.longitude = s.longitude := by
  unfold sendSMS
  split
  · rfl
  · cases smsClassify 15000 [] (popEnv env).1 <;> rfl

theorem sendSMS_snd_altitude (p m : String) (now : Nat) (env : Env) (s : SysState) :
    (sendSMS p m now env s).2.1.altitude = s.altitude := by
  unfold sendSMS
  split
  · rfl
  · cases smsClassify 15000 [] (popEnv env).1 <;> rfl

theorem sendSMS_snd_satellites (p m : String) (now : Nat) (env : Env) (s : SysState) :
    (sendSMS p m now env s).2.1.satellites = s.satellites := by
  unfold sendSMS
  split
  · rfl
  · cases smsClassify 15000 [] (popEnv env).1 <;> rfl

theorem sendSMS_snd_hdop (p m : String) (now : Nat) (env : Env) (s : SysState) :
    (sendSMS p m now env s).2.1.hdop = s.hdop := by
  unfold sendSMS
  split
  · rfl
  · cases smsClassify 15000 [] (popEnv env).1 <;> rfl

theorem sendSMS_snd_dateTime (p m : String) (now : Nat) (env : Env) (s : SysState) :
    (sendSMS p m now env s).2.1.dateTime = s.dateTime := by
  unfold sendSMS
  split
  · rfl
  · cases smsClassify 15000 [] (popEnv env).1 <;> rfl

theorem sendSMS_snd_maxSpeed (p m : String) (now : Nat) (env : Env) (s : SysState) :
    (sendSMS p m now env s).2.1.maxSpeed = s.maxSpeed := by
  unfold sendSMS
  split
  · rfl
  · cases smsClassify 15000 [] (popEnv env).1 <;> rfl

theorem sendSMS_snd_totalSMSSent (p m : String) (now : Nat) (env : Env) (s : SysState) :
    (sendSMS p m now env s).2.1.totalSMSSent = s.totalSMSSent := by
  unfold sendSMS
  split
  · rfl
  · cases smsClassify 15000 [] (popEnv env).1 <;> rfl

theorem sendSMS_snd_gpsFixCount (p m : String) (now : Nat) (env : Env) (s : SysState) :
    (sendSMS p m now env s).2.1.gpsFixCount = s.gpsFixCount := by
  unfold sendSMS
  split
  · rfl
  · cases smsClassify 15000 [] (popEnv env).1 <;> rfl

theorem sendSMS_snd_lastGPSRead (p m : String) (now : Nat) (env : Env) (s : SysState) :
    (sendSMS p m now env s).2.1.lastGPSRead = s.lastGPSRead := by
  unfold sendSMS
  split
  · rfl
  · cases smsClassify 15000 [] (popEnv env).1 <;> rfl

theorem sendSMS_snd_bootTime (p m : String) (now : Nat) (env : Env) (s : SysState) :
    (sendSMS p m now env s).2.1.bootTime = s.bootTime := by
  unfold sendSMS
  split
  · rfl
  · cases smsClassify 15000 [] (popEnv env).1 <;> rfl

theorem sendSMS_snd_testMode (p m : String) (now : Nat) (env : Env) (s : SysState) :
    (sendSMS p m now env s).2.1.testMode = s.testMode := by
  unfold sendSMS
  split
  · rfl
  · cases smsClassify 15000 [] (popEnv env).1 <;> rfl

theorem sendSMS_snd_eeprom (p m : String) (now : Nat) (env : Env) (s : SysState) :
    (sendSMS p m now env s).2.1.eeprom = s.eeprom := by
  unfold sendSMS
  split
  · rfl
  · cases smsClassify 15000 [] (popEnv env).1 <;> rfl

theorem sendSMS_outbox_ready (p m : String) (now : Nat) (env : Env)
    (s : SysState) (h : s.gsmReady = true) :
    (sendSMS p m now env s).2.1.outbox = s.outbox ++ [(p, m)] := by
  unfold sendSMS
  rw [h]
  cases smsClassify 15000 [] (popEnv env).1 <;> rfl

theorem sendSMS_env_ready (p m : String) (now : Nat) (env : Env)
    (s : SysState) (h : s.gsmReady = true) :
    (sendSMS p m now env s).2.2 = (popEnv env).2 := by
  unfold sendSMS
  rw [h]
  cases smsClassify 15000 [] (popEnv env).1 <;> rfl

theorem sendSMS_fst_ready (p m : String) (now : Nat) (env : Env)
    (s : SysState) (h : s.gsmReady = true) :
    (sendSMS p m now env s).1 =
      decide (smsClassify 15000 [] (popEnv env).1 = SmsOutcome.ok) := by
  unfold sendSMS
  rw [h]
  cases smsClassify 15000 [] (popEnv env).1 <;> simp

theorem sendSMS_totalErrors_ready (p m : String) (now : Nat) (env : Env)
    (s : SysState) (h : s.gsmReady = true) :
    (sendSMS p m now env s).2.1.totalErrors =
      (if smsClassify 15000 [] (popEnv env).1 = SmsOutcome.ok then
        s.totalErrors else s.totalErrors + 1) := by
  unfold sendSMS
  rw [h]
  cases smsClassify 15000 [] (popEnv env).1 <;> simp [logError]

theorem sendLocationUpdate_gpsFixed (reason : String) (now : Nat) (env : Env) (s : SysState) :
    (sendLocationUpdate reason now env s).1.gpsFixed = s.gpsFixed := by
  unfold sendLocationUpdate
  dsimp only
  split <;> simp [logError, sendSMS_snd_gpsFixed]

theorem sendLocationUpdate_gsmReady (reason : String) (now : Nat) (env : Env) (s : SysState) :
    (sendLocationUpdate reason now env s).1.gsmReady = s.gsmReady := by
  unfold sendLocationUpdate
  dsimp only
  split <;> simp [logError, sendSMS_snd_gsmReady]

theorem sendLocationUpdate_emergencyMode (reason : String) (now : Nat) (env : Env) (s : SysState) :
    (sendLocationUpdate reason now env s).1.emergencyMode = s.emergencyMode := by
  unfold sendLocationUpdate
  dsimp only
  split <;> simp [logError, sendSMS_snd_emergencyMode]

theorem sendLocationUpdate_trackingMode (reason : String) (now : Nat) (env : Env) (s : SysState) :
    (sendLocationUpdate reason now env s).1.trackingMode = s.trackingMode := by
  unfold sendLocationUpdate
  dsimp only
  split <;> simp [logError, sendSMS_snd_trackingMode]

theorem sendLocationUpdate_lastSpeedAlert (reason : String) (now : Nat) (env : Env) (s : SysState) :
    (sendLocationUpdate reason now env s).1.lastSpeedAlert = s.lastSpeedAlert := by
  unfold sendLocationUpdate
  dsimp only
  split <;> simp [logError, sendSMS_snd_lastSpeedAlert]

theorem sendLocationUpdate_lastHealthCheck (reason : String) (now : Nat) (env : Env) (s : SysState) :
    (sendLocationUpdate reason now env s).1.lastHealthCheck = s.lastHealthCheck := by
  unfold sendLocationUpdate
  dsimp only
  split <;> simp [logError, sendSMS_snd_lastHealthCheck]

theorem sendLocationUpdate_systemHealthy (reason : String) (now : Nat) (env : Env) (s : SysState) :
    (sendLocationUpdate reason now env s).1.systemHealthy = s.systemHealthy := by
  unfold sendLocationUpdate
  dsimp only
  split <;> simp [logError, sendSMS_snd_systemHealthy]

theorem sendLocationUpdate_speed (reason : String) (now : Nat) (env : Env) (s : SysState) :
    (sendLocationUpdate reason now env s).1.speed = s.speed := by
  unfold sendLocationUpdate
  dsimp only
  split <;> simp [logError, sendSMS_snd_speed]

theorem sendLocationUpdate_latitude (reason : String) (now : Nat) (env : Env) (s : SysState) :
    (sendLocationUpdate reason now env s).1.latitude = s.latitude := by
  unfold sendLocationUpdate
  dsimp only
  split <;> simp [logError, sendSMS_snd_latitude]

theorem sendLocationUpdate_longitude (reason : String) (now : Nat) (env : Env) (s : SysState) :
    (sendLocationUpdate reason now env s).1.longitude = s.longitude := by
  unfold sendLocationUpdate
  dsimp only
  split <;> simp [logError, sendSMS_snd_longitude]

theorem sendLocationUpdate_altitude (reason : String) (now : Nat) (env : Env) (s : SysState) :
    (sendLocationUpdate reason now env s).1.altitude = s.altitude := by
  unfold sendLocationUpdate
  dsimp only
  split <;> simp [logError, sendSMS_snd_altitude]

theorem sendLocationUpdate_satellites (reason : String) (now : Nat) (env : Env) (s : SysState) :
    (sendLocationUpdate reason now env s).1.satellites = s.satellites := by
  unfold sendLocationUpdate
  dsimp only
  split <;> simp [logError, sendSMS_snd_satellites]

theorem sendLocationUpdate_hdop (reason : String) (now : Nat) (env : Env) (s : SysState) :
    (sendLocationUpdate reason now env s).1.hdop = s.hdop := by
  unfold sendLocationUpdate
  dsimp only
  split <;> simp [logError, sendSMS_snd_hdop]

theorem sendLocationUpdate_dateTime (reason : String) (now : Nat) (env : Env) (s : SysState) :
    (sendLocationUpdate reason now env s).1.dateTime = s.dateTime := by
  unfold sendLocationUpdate
  dsimp only
  split <;> simp [logError, sendSMS_snd_dateTime]

theorem sendLocationUpdate_maxSpeed (reason : String) (now : Nat) (env : Env) (s : SysState) :
    (sendLocationUpdate reason now env s).1.maxSpeed = s.maxSpeed := by
  unfold sendLocationUpdate
  dsimp only
  split <;> simp [logError, sendSMS_snd_maxSpeed]

theorem sendLocationUpdate_gpsFixCount (reason : String) (now : Nat) (env : Env) (s : SysState) :
    (sendLocationUpdate reason now env s).1.gpsFixCount = s.gpsFixCount := by
  unfold sendLocationUpdate
  dsimp only
  split <;> simp [logError, sendSMS_snd_gpsFixCount]

theorem sendLocationUpdate_lastGPSRead (reason : String) (now : Nat) (env : Env) (s : SysState) :
    (sendLocationUpdate reason now env s).1.lastGPSRead = s.lastGPSRead := by
  unfold sendLocationUpdate
  dsimp only
  split <;> simp [logError, sendSMS_snd_lastGPSRead]

theorem sendLocationUpdate_bootTime (reason : String) (now : Nat) (env : Env) (s : SysState) :
    (sendLocationUpdate reason now env s).1.bootTime = s.bootTime := by
  unfold sendLocationUpdate
  dsimp only
  split <;> simp [logError, sendSMS_snd_bootTime]

theorem sendLocationUpdate_testMode (reason : String) (now : Nat) (env : Env) (s : SysState) :
    (sendLocationUpdate reason now env s).1.testMode = s.testMode := by
  unfold sendLocationUpdate
  dsimp only
  split <;> simp [logError, sendSMS_snd_testMode]

theorem sendLocationUpdate_eeprom (reason : String) (now : Nat) (env : Env) (s : SysState) :
    (sendLocationUpdate reason now env s).1.eeprom = s.eeprom := by
  unfold sendLocationUpdate
  dsimp only
  split <;> simp [logError, sendSMS_snd_eeprom]

theorem sendLocationUpdate_lastSendTime (reason : String) (now : Nat) (env : Env) (s : SysState) :
    (sendLocationUpdate reason now env s).1.lastSendTime = s.lastSendTime := by
  unfold sendLocationUpdate
  dsimp only
  split <;> simp [logError, sendSMS_snd_lastSendTime]

theorem sendLocationUpdate_outbox_ready (reason : String) (now : Nat)
    (env : Env) (s : SysState) (h : s.gsmReady = true) :
    (sendLocationUpdate reason now env s).1.outbox =
      s.outbox ++ [(ADMIN_PHONE, locationMessage s)] := by
  unfold sendLocationUpdate
  dsimp only
  split <;> simp [sendSMS_outbox_ready _ _ _ _ _ h]

theorem sendLocationUpdate_totalSMSSent_ready (reason : String) (now : Nat)
    (env : Env) (s : SysState) (h : s.gsmReady = true) :
    (sendLocationUpdate reason now env s).1.totalSMSSent =
      (if smsClassify 15000 [] (popEnv env).1 = SmsOutcome.ok then
        s.totalSMSSent + 1 else s.totalSMSSent) := by
  unfold sendLocationUpdate
  dsimp only
  rw [sendSMS_fst_ready _ _ _ _ _ h]
  by_cases hc : smsClassify 15000 [] (popEnv env).1 = SmsOutcome.ok
  · rw [if_pos hc]
    simp [hc, sendSMS_snd_totalSMSSent]
  · rw [if_neg hc]
    simp [hc, sendSMS_snd_totalSMSSent]

theorem sendLocationUpdate_totalErrors_ready (reason : String) (now : Nat)
    (env : Env) (s : SysState) (h : s.gsmReady = true) :
    (sendLocationUpdate reason now env s).1.totalErrors =
      (if smsClassify 15000 [] (popEnv env).1 = SmsOutcome.ok then
        s.totalErrors else s.totalErrors + 2) := by
  unfold sendLocationUpdate
  dsimp only
  rw [sendSMS_fst_ready _ _ _ _ _ h]
  by_cases hc : smsClassify 15000 [] (popEnv env).1 = SmsOutcome.ok
  · rw [if_pos hc]
    simp [hc, sendSMS_totalErrors_ready _ _ _ _ _ h]
  · rw [if_neg hc]
    simp [hc, logError, sendSMS_totalErrors_ready _ _ _ _ _ h]

/-- Claim C2: the report interval is a total, deterministic function of the
mode (Normal → 300000 ms, Tracking → 60000 ms, Emergency → 30000 ms, with
Emergency taking precedence when both flags are set), and
`checkLocationUpdate` sends a scheduled report exactly when
`now − lastSendTime ≥ interval(mode)`, a fix is held and the modem is
ready, resetting `lastSendTime` to `now` when it sends. -/
theorem c2_theorem :
    (intervalOfMode Mode.normal = 300000 ∧ intervalOfMode Mode.tracking = 60000 ∧
      intervalOfMode Mode.emergency = 30000) ∧
    (∀ em tr : Bool, codeInterval em tr = intervalOfMode (modeOf em tr)) ∧
    (∀ (now : Nat) (env : Env) (s : SysState),
      s.lastSendTime ≤ now → now < u32Mod →
      ((s.gpsFixed = true ∧ s.gsmReady = true ∧
          codeInterval s.emergencyMode s.trackingMode ≤ now - s.lastSendTime) →
        (checkLocationUpdate now env s).1.lastSendTime = now ∧
        (checkLocationUpdate now env s).1.outbox =
          s.outbox ++ [(ADMIN_PHONE, locationMessage s)]) ∧
      (¬(s.gpsFixed = true ∧ s.gsmReady = true ∧
          codeInterval s.emergencyMode s.trackingMode ≤ now - s.lastSendTime) →
        checkLocationUpdate now env s = (s, env))) := by
  refine ⟨⟨rfl, rfl, rfl⟩, ?_, ?_⟩
  · intro em tr
    cases em <;> cases tr <;> rfl
  · intro now env s hle hlt
    have husub : usub now s.lastSendTime = now - s.lastSendTime :=
      usub_eq_sub _ _ hle hlt
    constructor
    · intro hc
      rw [checkLocationUpdate, husub, if_pos hc]
      exact ⟨rfl, sendLocationUpdate_outbox_ready _ _ _ _ hc.2.1⟩
    · intro hn
      rw [checkLocationUpdate, husub, if_neg hn]

/-- A concrete ready-and-fixed tracking-mode state used as a witness
input. -/
def trackingReadyState : SysState :=
  { initState with gpsFixed := true, gsmReady := true, trackingMode := true }

/-- Witness for claim C2: a concrete due tick in tracking mode sends and
stamps `lastSendTime`, and a concrete early tick changes nothing. -/
theorem c2_witness :
    ((checkLocationUpdate 60000 [] trackingReadyState).1.lastSendTime = 60000 ∧
      (checkLocationUpdate 60000 [] trackingReadyState).1.outbox =
        trackingReadyState.outbox ++
          [(ADMIN_PHONE, locationMessage trackingReadyState)]) ∧
    checkLocationUpdate 59999 [] trackingReadyState = (trackingReadyState, []) := by
  constructor
  · exact ((c2_theorem.2.2 60000 [] trackingReadyState
      (by decide) (by decide)).1 ⟨rfl, rfl, by decide⟩)
  · exact ((c2_theorem.2.2 59999 [] trackingReadyState
      (by decide) (by decide)).2 (by decide))

/-- The records currently held by the ring buffer in FIFO order: the 10
slots read starting at `errorIndex` (the oldest slot) and wrapping. -/
def snapshot (s : SysState) : List ErrorRecord :=
  (List.range 10).map (fun j => s.errorHistory ((s.errorIndex + j) % 10))

/-- Append a list of records through `logError`, in order. -/
def applyLog (es : List ErrorRecord) (s : SysState) : SysState :=
  es.foldl (fun t r => logError r.errorType r.errorMessage r.timestamp t) s

theorem applyLog_append (es : List ErrorRecord) (r : ErrorRecord)
    (s : SysState) :
    applyLog (es ++ [r]) s =
      logError r.errorType r.errorMessage r.timestamp (applyLog es s) := by
  simp [applyLog, List.foldl_append]

theorem applyLog_errorIndex_lt (es : List ErrorRecord) (s : SysState)
    (h : s.errorIndex < 10) : (applyLog es s).errorIndex < 10 := by
  induction es generalizing s with
  | nil => exact h
  | cons r es ih =>
    exact ih (logError r.errorType r.errorMessage r.timestamp s)
      (Nat.mod_lt _ (by omega))

theorem applyLog_totalErrors (es : List ErrorRecord) (s : SysState) :
    (applyLog es s).totalErrors = s.totalErrors + es.length := by
  induction es generalizing s with
  | nil => rfl
  | cons r es ih =>
    have := ih (logError r.errorType r.errorMessage r.timestamp s)
    simp only [applyLog, List.foldl_cons] at this ⊢
    rw [this, logError_totalErrors, List.length_cons]
    omega

theorem snapshot_logError (t m : String) (now : Nat) (s : SysState)
    (h : s.errorIndex < 10) :
    snapshot (logError t m now s) = (snapshot s).drop 1 ++ [⟨t, m, now⟩] := by
  have hr : List.range 10 = [0, 1, 2, 3, 4, 5, 6, 7, 8, 9] := rfl
  simp only [snapshot, logError, hr, List.map_cons, List.map_nil,
    List.drop_succ_cons, List.drop_zero, List.cons_append, List.nil_append,
    List.cons.injEq, and_true]
  refine ⟨?_, ?_, ?_, ?_, ?_, ?_, ?_, ?_, ?_, ?_⟩
  · rw [if_neg (by omega)]
    congr 1
    omega
  · rw [if_neg (by omega)]
    congr 1
    omega
  · rw [if_neg (by omega)]
    congr 1
    omega
  · rw [if_neg (by omega)]
    congr 1
    omega
  · rw [if_neg (by omega)]
    congr 1
    omega
  · rw [if_neg (by omega)]
    congr 1
    omega
  · rw [if_neg (by omega)]
    congr 1
    omega
  · rw [if_neg (by omega)]
    congr 1
    omega
  · rw [if_neg (by omega)]
    congr 1
    omega
  · rw [if_pos (by omega)]

/-- Claim C6: the error log is a fixed-capacity ring buffer of exactly 10
records kept in FIFO order — every append increments `totalErrors` by one,
and after any sequence of appends from the initial state the buffer holds
exactly the last `min(n, 10)` records appended, in order (so the 11th
append evicts the 1st). -/
theorem c6_theorem :
    (∀ (t m : String) (now : Nat) (s : SysState),
      (logError t m now s).totalErrors = s.totalErrors + 1) ∧
    (∀ es : List ErrorRecord,
      (applyLog es initState).totalErrors = es.length ∧
      snapshot (applyLog es initState) =
        List.replicate (10 - min 10 es.length) default ++
          es.drop (es.length - 10)) := by
  constructor
  · intro t m now s
    rfl
  · intro es
    constructor
    · rw [applyLog_totalErrors]
      have h0 : initState.totalErrors = 0 := rfl
      omega
    · induction es using List.reverseRecOn with
      | nil => decide
      | append_singleton es r ih =>
        rw [applyLog_append,
          snapshot_logError _ _ _ _
            (applyLog_errorIndex_lt es initState (by decide)), ih]
        rcases Nat.lt_or_ge es.length 10 with hn | hn
        · have h1 : min 10 es.length = es.length := by omega
          have h2 : 10 - es.length = (9 - es.length) + 1 := by omega
          have h3 : es.length - 10 = 0 := by omega
          have h4 : min 10 (es ++ [r]).length = es.length + 1 := by
            simp only [List.length_append, List.length_cons, List.length_nil]
            omega
          have h5 : (es ++ [r]).length - 10 = 0 := by
            simp only [List.length_append, List.length_cons, List.length_nil]
            omega
          rw [h1, h2, h3, h4, h5, List.drop_zero, List.drop_zero,
            List.replicate_succ, List.cons_append, List.drop_succ_cons,
            List.drop_zero, List.append_assoc]
          have h6 : 10 - (es.length + 1) = 9 - es.length := by omega
          rw [h6]
        · have h1 : min 10 es.length = 10 := by omega
          have h2 : min 10 (es ++ [r]).length = 10 := by
            simp only [List.length_append, List.length_cons, List.length_nil]
            omega
          rw [h1, h2]
          simp only [Nat.sub_self, List.replicate_zero, List.nil_append]
          rw [List.drop_drop]
          have h3 : es.length - 10 + 1 = es.length - 9 := by omega
          have h4 : (es ++ [r]).length - 10 = es.length - 9 := by
            simp only [List.length_append, List.length_cons, List.length_nil]
            omega
          rw [h3, h4, List.drop_append_of_le_length (by omega)]

@[simp] theorem saveSystemStats_emergencyMode (s : SysState) :
    (saveSystemStats s).emergencyMode = s.emergencyMode := rfl

@[simp] theorem saveSystemStats_trackingMode (s : SysState) :
    (saveSystemStats s).trackingMode = s.trackingMode := rfl

@[simp] theorem saveSystemStats_lastSendTime (s : SysState) :
    (saveSystemStats s).lastSendTime = s.lastSendTime := rfl

theorem sendHealthAlert_emergencyMode (now : Nat) (env : Env) (s : SysState) :
    (sendHealthAlert now env s).1.emergencyMode = s.emergencyMode := by
  unfold sendHealthAlert
  dsimp only
  split <;> simp [sendSMS_snd_emergencyMode]

theorem sendHealthAlert_trackingMode (now : Nat) (env : Env) (s : SysState) :
    (sendHealthAlert now env s).1.trackingMode = s.trackingMode := by
  unfold sendHealthAlert
  dsimp only
  split <;> simp [sendSMS_snd_trackingMode]

theorem sendHealthAlert_lastSendTime (now : Nat) (env : Env) (s : SysState) :
    (sendHealthAlert now env s).1.lastSendTime = s.lastSendTime := by
  unfold sendHealthAlert
  dsimp only
  split <;> simp [sendSMS_snd_lastSendTime]

theorem sendSystemStatus_emergencyMode (now : Nat) (env : Env) (s : SysState) :
    (sendSystemStatus now env s).1.emergencyMode = s.emergencyMode := by
  unfold sendSystemStatus
  simp [sendSMS_snd_emergencyMode]

theorem sendHelpMessage_emergencyMode (now : Nat) (env : Env) (s : SysState) :
    (sendHelpMessage now env s).1.emergencyMode = s.emergencyMode := by
  unfold sendHelpMessage
  simp [sendSMS_snd_emergencyMode]

theorem runSystemTest_emergencyMode (now : Nat) (env : Env) (s : SysState) :
    (runSystemTest now env s).1.emergencyMode = s.emergencyMode := by
  unfold runSystemTest
  dsimp only
  split <;> simp [sendSMS_snd_emergencyMode]

theorem performHealthCheck_emergencyMode (now : Nat) (env : Env)
    (s : SysState) :
    (performHealthCheck now env s).1.emergencyMode = s.emergencyMode := by
  unfold performHealthCheck
  dsimp only
  split
  · split <;> simp [sendHealthAlert_emergencyMode]
  · rfl

/-- The response stream `"OK"` arriving immediately. -/
def okStream : RespStream := [(0, 'O'), (1, 'K')]

/-- A modem-ready state without a GPS fix, so the health evaluation
computes `overall = unhealthy`. -/
def unhealthyReadyState : SysState :=
  { initState with gsmReady := true, gpsFixed := false }

/-- Claim C3 (code evaluated at the failing input): `performHealthCheck`
never touches `emergencyMode` — in particular a tick that computes
`systemHealthy = false` leaves `emergencyMode = false` instead of entering
Emergency — and the command interpreter only ever clears it (via
`EMERGENCY OFF`), never sets it; no code path in the sketch assigns
`emergencyMode = true`. -/
theorem c3_theorem :
    (∀ (now : Nat) (env : Env) (s : SysState),
      (performHealthCheck now env s).1.emergencyMode = s.emergencyMode) ∧
    (∀ (idx now : Nat) (env : Env) (s : SysState),
      (processSMSCommand idx now env s).state.emergencyMode =
        (if selectsEmergencyOff (cmdText env) = true then false
          else s.emergencyMode)) ∧
    (performHealthCheck 60000 [okStream, okStream, okStream]
        unhealthyReadyState).1.systemHealthy = false ∧
    (performHealthCheck 60000 [okStream, okStream, okStream]
        unhealthyReadyState).1.emergencyMode = false := by
  refine ⟨performHealthCheck_emergencyMode, ?_, by decide, by decide⟩
  intro idx now env s
  rw [processSMSCommand]
  dsimp only
  split_ifs with h1 h2 h3 h4 h5 h6 h7 h8 <;>
    simp_all [selectsEmergencyOff, cmdText, sendSMS_snd_emergencyMode,
      sendSystemStatus_emergencyMode, sendLocationUpdate_emergencyMode,
      runSystemTest_emergencyMode, sendHelpMessage_emergencyMode]

theorem checkSpeedLimit_gpsFixed (now : Nat) (env : Env) (s : SysState) :
    (checkSpeedLimit now env s).1.gpsFixed = s.gpsFixed := by
  unfold checkSpeedLimit
  dsimp only
  split_ifs <;> simp [logError, sendSMS_snd_gpsFixed]

theorem checkSpeedLimit_gsmReady (now : Nat) (env : Env) (s : SysState) :
    (checkSpeedLimit now env s).1.gsmReady = s.gsmReady := by
  unfold checkSpeedLimit
  dsimp only
  split_ifs <;> simp [logError, sendSMS_snd_gsmReady]

theorem checkSpeedLimit_emergencyMode (now : Nat) (env : Env) (s : SysState) :
    (checkSpeedLimit now env s).1.emergencyMode = s.emergencyMode := by
  unfold checkSpeedLimit
  dsimp only
  split_ifs <;> simp [logError, sendSMS_snd_emergencyMode]

theorem checkSpeedLimit_trackingMode (now : Nat) (env : Env) (s : SysState) :
    (checkSpeedLimit now env s).1.trackingMode = s.trackingMode := by
  unfold checkSpeedLimit
  dsimp only
  split_ifs <;> simp [logError, sendSMS_snd_trackingMode]

theorem checkSpeedLimit_totalSMSSent (now : Nat) (env : Env) (s : SysState) :
    (checkSpeedLimit now env s).1.totalSMSSent = s.totalSMSSent := by
  unfold checkSpeedLimit
  dsimp only
  split_ifs <;> simp [logError, sendSMS_snd_totalSMSSent]

theorem checkSpeedLimit_dateTime (now : Nat) (env : Env) (s : SysState) :
    (checkSpeedLimit now env s).1.dateTime = s.dateTime := by
  unfold checkSpeedLimit
  dsimp only
  split_ifs <;> simp [logError, sendSMS_snd_dateTime]

theorem checkSpeedLimit_lastSendTime (now : Nat) (env : Env) (s : SysState) :
    (checkSpeedLimit now env s).1.lastSendTime = s.lastSendTime := by
  unfold checkSpeedLimit
  dsimp only
  split_ifs <;> simp [logError, sendSMS_snd_lastSendTime]

theorem checkSpeedLimit_speed (now : Nat) (env : Env) (s : SysState) :
    (checkSpeedLimit now env s).1.speed = s.speed := by
  unfold checkSpeedLimit
  dsimp only
  split_ifs <;> simp [logError, sendSMS_snd_speed]

theorem checkSpeedLimit_satellites (now : Nat) (env : Env) (s : SysState) :
    (checkSpeedLimit now env s).1.satellites = s.satellites := by
  unfold checkSpeedLimit
  dsimp only
  split_ifs <;> simp [logError, sendSMS_snd_satellites]

theorem checkSpeedLimit_maxSpeed (now : Nat) (env : Env) (s : SysState) :
    (checkSpeedLimit now env s).1.maxSpeed = s.maxSpeed := by
  unfold checkSpeedLimit
  dsimp only
  split_ifs <;> simp [logError, sendSMS_snd_maxSpeed]

theorem checkSpeedLimit_hdop (now : Nat) (env : Env) (s : SysState) :
    (checkSpeedLimit now env s).1.hdop = s.hdop := by
  unfold checkSpeedLimit
  dsimp only
  split_ifs <;> simp [logError, sendSMS_snd_hdop]

theorem checkSpeedLimit_latitude (now : Nat) (env : Env) (s : SysState) :
    (checkSpeedLimit now env s).1.latitude = s.latitude := by
  unfold checkSpeedLimit
  dsimp only
  split_ifs <;> simp [logError, sendSMS_snd_latitude]

theorem checkSpeedLimit_longitude (now : Nat) (env : Env) (s : SysState) :
    (checkSpeedLimit now env s).1.longitude = s.longitude := by
  unfold checkSpeedLimit
  dsimp only
  split_ifs <;> simp [logError, sendSMS_snd_longitude]

theorem checkSpeedLimit_altitude (now : Nat) (env : Env) (s : SysState) :
    (checkSpeedLimit now env s).1.altitude = s.altitude := by
  unfold checkSpeedLimit
  dsimp only
  split_ifs <;> simp [logError, sendSMS_snd_altitude]

theorem checkSpeedLimit_gpsFixCount (now : Nat) (env : Env) (s : SysState) :
    (checkSpeedLimit now env s).1.gpsFixCount = s.gpsFixCount := by
  unfold checkSpeedLimit
  dsimp only
  split_ifs <;> simp [logError, sendSMS_snd_gpsFixCount]

theorem checkSpeedLimit_lastGPSRead (now : Nat) (env : Env) (s : SysState) :
    (checkSpeedLimit now env s).1.lastGPSRead = s.lastGPSRead := by
  unfold checkSpeedLimit
  dsimp only
  split_ifs <;> simp [logError, sendSMS_snd_lastGPSRead]

theorem checkSpeedLimit_lastHealthCheck (now : Nat) (env : Env) (s : SysState) :
    (checkSpeedLimit now env s).1.lastHealthCheck = s.lastHealthCheck := by
  unfold checkSpeedLimit
  dsimp only
  split_ifs <;> simp [logError, sendSMS_snd_lastHealthCheck]

theorem checkSpeedLimit_systemHealthy (now : Nat) (env : Env) (s : SysState) :
    (checkSpeedLimit now env s).1.systemHealthy = s.systemHealthy := by
  unfold checkSpeedLimit
  dsimp only
  split_ifs <;> simp [logError, sendSMS_snd_systemHealthy]

theorem checkSpeedLimit_bootTime (now : Nat) (env : Env) (s : SysState) :
    (checkSpeedLimit now env s).1.bootTime = s.bootTime := by
  unfold checkSpeedLimit
  dsimp only
  split_ifs <;> simp [logError, sendSMS_snd_bootTime]

theorem checkSpeedLimit_testMode (now : Nat) (env : Env) (s : SysState) :
    (checkSpeedLimit now env s).1.testMode = s.testMode := by
  unfold checkSpeedLimit
  dsimp only
  split_ifs <;> simp [logError, sendSMS_snd_testMode]

/-- Claim C10 (the probe bug evaluated): the C++ expression
`!sendATCommand("AT", 2000).indexOf("OK") > -1` applies `!` before `>`,
so the abort condition of the liveness probe holds for every response;
`initializeGSM` therefore aborts (modem left not-ready, a `GSM` error
logged) even when the probe response contains the success token `OK`. -/
theorem c10_theorem :
    (∀ resp : List Char, cppNot (idxOfTok okTok resp) > -1) ∧
    containsTok okTok
      ((okStream.filter (fun p => p.1 < 2000)).map (fun p => p.2)) = true ∧
    (initializeGSM 0 [okStream] initState).1 = false ∧
    (initializeGSM 0 [okStream] initState).2.1.gsmReady = false ∧
    (initializeGSM 0 [okStream] initState).2.1.lastError =
      errTypeGSM ++ sepColon ++ errMsgNoATResponse := by
  refine ⟨?_, by decide, by decide, by decide, by decide⟩
  intro resp
  unfold cppNot
  split <;> decide

/-- A raw sample passing every acceptance predicate. -/
def goodSample : GPSSample := ⟨12, 77, 900, 50, 6, 1, 5, 3, 2024, 10, 30, 0⟩

/-- The state after the first accepted sample at time 0 (fix acquired). -/
def fixedAfterFirstSample : SysState :=
  (processGPSData [(0, some goodSample)] 0 [] initState).1

/-- Counterexample to claim C8: after the fix is acquired at time 0, a
sentence *without* an accepted sample decoded at 35000 ms keeps the fix
alive at 40000 ms (no accepted sample for 40 s > 30 s), while without that
sentence the fix would have been dropped — so `Fixed → NoFix` is governed
by the last decoded sentence, not the last accepted sample. -/
theorem c8_counterexample :
    fixedAfterFirstSample.gpsFixed = true ∧
    (processGPSData [(35000, none)] 40000 [] fixedAfterFirstSample).1.gpsFixed
      = true ∧
    (processGPSData [] 40000 [] fixedAfterFirstSample).1.gpsFixed = false := by
  refine ⟨by decide, by decide, by decide⟩

/-- Claim C8 (amended): `NoFix → Fixed` on an accepted sample; the fix-lost
transition fires exactly when more than 30000 ms passed since the last
*decoded sentence* (`lastGPSRead`), accepted or not; and when no fix is
held after the 180000 ms startup timeout an acquisition-timeout GPS error
is logged while the mode flags stay untouched. -/
theorem c8_theorem :
    (∀ (now : Nat) (g : GPSSample) (env : Env) (s : SysState),
      s.gpsFixed = false → isValidGPSData (updateFix g s) = true →
      (processSample now g env s).1.gpsFixed = true) ∧
    (∀ (nowEnd : Nat) (env : Env) (s : SysState),
      (processGPSData [] nowEnd env s).1.gpsFixed =
        (s.gpsFixed && !decide (usub nowEnd s.lastGPSRead > 30000))) ∧
    (∀ (t nowEnd : Nat) (env : Env) (s : SysState),
      (processGPSData [(t, none)] nowEnd env s).1.lastGPSRead = t ∧
      (processGPSData [(t, none)] nowEnd env s).1.gpsFixed =
        (s.gpsFixed && !decide (usub nowEnd t > 30000))) ∧
    (∀ (nowEnd : Nat) (env : Env) (s : SysState),
      s.gpsFixed = false → nowEnd > GPS_TIMEOUT →
      (processGPSData [] nowEnd env s).1.totalErrors = s.totalErrors + 1 ∧
      (processGPSData [] nowEnd env s).1.lastError =
        errTypeGPS ++ sepColon ++ errMsgGpsTimeout ∧
      (processGPSData [] nowEnd env s).1.emergencyMode = s.emergencyMode ∧
      (processGPSData [] nowEnd env s).1.trackingMode = s.trackingMode) := by
  refine ⟨?_, ?_, ?_, ?_⟩
  · intro now g env s h0 hv
    unfold processSample
    dsimp only
    rw [if_pos hv]
    have hg : (updateFix g s).gpsFixed = s.gpsFixed := rfl
    split_ifs <;>
      simp_all [checkSpeedLimit_gpsFixed, sendLocationUpdate_gpsFixed]
  · intro nowEnd env s
    simp only [processGPSData, List.foldl_nil]
    split_ifs <;> simp_all [logError]
  · intro t nowEnd env s
    simp only [processGPSData, List.foldl_cons, List.foldl_nil]
    constructor
    · split_ifs <;> simp_all [logError]
    · split_ifs <;> simp_all [logError]
  · intro nowEnd env s h0 ht
    simp only [processGPSData, List.foldl_nil]
    split_ifs <;> simp_all [logError]

/-- Witness for claim C8: the first accepted sample flips `gpsFixed` on,
and a bare timeout check at 200000 ms from a fresh state logs one
acquisition-timeout error without touching the mode flags. -/
theorem c8_witness :
    (processSample 0 goodSample [] initState).1.gpsFixed = true ∧
    ((processGPSData [] 200000 [] initState).1.totalErrors =
        initState.totalErrors + 1 ∧
      (processGPSData [] 200000 [] initState).1.lastError =
        errTypeGPS ++ sepColon ++ errMsgGpsTimeout ∧
      (processGPSData [] 200000 [] initState).1.emergencyMode =
        initState.emergencyMode ∧
      (processGPSData [] 200000 [] initState).1.trackingMode =
        initState.trackingMode) :=
  ⟨c8_theorem.1 0 goodSample [] initState rfl (by decide),
   c8_theorem.2.2.2 200000 [] initState rfl (by decide)⟩

/-- A raw sample rejected by the validator (satellite count 0 < 4). -/
def badSample : GPSSample := ⟨50, 60, 0, 0, 0, 1, 1, 1, 2020, 0, 0, 0⟩

/-- A state holding a fix at latitude 10, longitude 20. -/
def stateWithFix : SysState :=
  { initState with
    latitude := 10, longitude := 20, gpsFixed := true,
    satellites := 6, hdop := 1, speed := 30 }

/-- Counterexample to claim C1: the rejected sample (satellite count 0)
is logged as a GPS error, but the current Fix is *not* identical before
and after — the globals are overwritten with the sample's values before
validation, so the stored latitude becomes 50 instead of staying 10. -/
theorem c1_counterexample :
    isValidGPSData (updateFix badSample stateWithFix) = false ∧
    stateWithFix.latitude = 10 ∧
    (processSample 0 badSample [] stateWithFix).1.latitude = 50 ∧
    (processSample 0 badSample [] stateWithFix).1.latitude ≠
      stateWithFix.latitude := by
  refine ⟨by decide, by decide, by decide, by decide⟩

/-- Claim C1 (amended): a sample failing the acceptance predicate is
rejected — exactly one GPS error is logged and none of the accept-path
effects happen (fix state, fix count, timestamp, max speed, speed alert,
message send are all untouched) — but the raw current-fix fields
(latitude, longitude, altitude, speed, satellites, HDOP) are overwritten
with the rejected sample's values before validation runs, the previous
position being kept in `prevLatitude`/`prevLongitude`. -/
theorem c1_theorem :
    ∀ (now : Nat) (g : GPSSample) (env : Env) (s : SysState),
    isValidGPSData (updateFix g s) = false →
    processSample now g env s =
      (logError errTypeGPS errMsgInvalidGPS now (updateFix g s), env) ∧
    (processSample now g env s).1.latitude = g.lat ∧
    (processSample now g env s).1.longitude = g.lng ∧
    (processSample now g env s).1.altitude = g.alt ∧
    (processSample now g env s).1.speed = g.speedKmh ∧
    (processSample now g env s).1.satellites = g.sats ∧
    (processSample now g env s).1.hdop = g.hdop ∧
    (processSample now g env s).1.prevLatitude = s.latitude ∧
    (processSample now g env s).1.prevLongitude = s.longitude ∧
    (processSample now g env s).1.gpsFixed = s.gpsFixed ∧
    (processSample now g env s).1.dateTime = s.dateTime ∧
    (processSample now g env s).1.totalSMSSent = s.totalSMSSent ∧
    (processSample now g env s).1.outbox = s.outbox ∧
    (processSample now g env s).1.lastSpeedAlert = s.lastSpeedAlert ∧
    (processSample now g env s).1.lastSendTime = s.lastSendTime ∧
    (processSample now g env s).1.maxSpeed = s.maxSpeed ∧
    (processSample now g env s).1.gpsFixCount = s.gpsFixCount ∧
    (processSample now g env s).1.totalErrors = s.totalErrors + 1 := by
  intro now g env s h
  have he : processSample now g env s =
      (logError errTypeGPS errMsgInvalidGPS now (updateFix g s), env) := by
    unfold processSample
    rw [if_neg (by simp [h])]
  refine ⟨he, ?_⟩
  rw [he]
  simp [logError, updateFix]

/-- Witness for claim C1: the amended claim applied to the concrete
rejected sample. -/
theorem c1_witness :
    (processSample 0 badSample [] stateWithFix).1.gpsFixed =
      stateWithFix.gpsFixed ∧
    (processSample 0 badSample [] stateWithFix).1.totalErrors =
      stateWithFix.totalErrors + 1 := by
  have h := c1_theorem 0 badSample [] stateWithFix (by decide)
  exact ⟨h.2.2.2.2.2.2.2.2.2.1,
    h.2.2.2.2.2.2.2.2.2.2.2.2.2.2.2.2.2⟩

/-- The retrieved-message response `"REBOOT"`, all bytes within the 5 s
read window. -/
def rebootStream : RespStream :=
  [(0, 'R'), (1, 'E'), (2, 'B'), (3, 'O'), (4, 'O'), (5, 'T')]

/-- A state whose modem is ready. -/
def readyState : SysState := { initState with gsmReady := true }

/-- Counterexample to claim C5: an inbound message whose body is `REBOOT`
is dispatched to the restart branch, and `ESP.restart()` runs before the
deletion step — the message is never deleted from the store. -/
theorem c5_counterexample :
    (processSMSCommand 3 0 [rebootStream, okStream] readyState).restarted
      = true ∧
    (processSMSCommand 3 0 [rebootStream, okStream] readyState).deleted
      = none := by
  refine ⟨by decide, by decide⟩

/-- Claim C5 (amended): every retrieved inbound message is deleted from
the store by its index after processing — recognized or not, action
successful or not — except a message dispatched to the `REBOOT` branch,
which restarts the device before the deletion step ever runs. -/
theorem c5_theorem :
    ∀ (idx now : Nat) (env : Env) (s : SysState),
      (processSMSCommand idx now env s).restarted =
        selectsReboot (cmdText env) ∧
      (processSMSCommand idx now env s).deleted =
        (if selectsReboot (cmdText env) = true then none else some idx) := by
  intro idx now env s
  rw [processSMSCommand]
  dsimp only
  split_ifs with h1 h2 h3 h4 h5 h6 h7 h8 <;>
    simp_all [selectsReboot, cmdText]

/-- The characters the 15 s response loop actually reads: the stream up to
the first byte arriving at or after the deadline. -/
def procChars (deadline : Nat) (stream : List (Nat × Char)) : List Char :=
  (stream.takeWhile (fun p => decide (p.1 < deadline))).map (fun p => p.2)

theorem procChars_cons_lt (d t : Nat) (c : Char) (rest : List (Nat × Char))
    (hlt : t < d) :
    procChars d ((t, c) :: rest) = c :: procChars d rest := by
  simp [procChars, List.takeWhile_cons, hlt]

theorem procChars_cons_ge (d t : Nat) (c : Char) (rest : List (Nat × Char))
    (hge : ¬t < d) :
    procChars d ((t, c) :: rest) = [] := by
  simp [procChars, List.takeWhile_cons, hge]

theorem startsWithTok_mono (tok l r : List Char) (h : startsWithTok tok l = true) :
    startsWithTok tok (l ++ r) = true := by
  induction tok generalizing l with
  | nil => rfl
  | cons t ts ih =>
    cases l with
    | nil => exact absurd h (by simp [startsWithTok])
    | cons c cs =>
      rw [List.cons_append]
      simp only [startsWithTok, Bool.and_eq_true] at h ⊢
      exact ⟨h.1, ih cs h.2⟩

theorem containsTok_mono (tok l r : List Char)
    (h : containsTok tok l = true) : containsTok tok (l ++ r) = true := by
  induction l with
  | nil =>
    simp only [containsTok] at h
    have htok : tok = [] := by
      cases tok with
      | nil => rfl
      | cons t ts => exact absurd h (by simp [startsWithTok])
    subst htok
    cases r with
    | nil => rfl
    | cons c cs => simp [containsTok, startsWithTok]
  | cons c cs ih =>
    simp only [containsTok, Bool.or_eq_true] at h
    rw [List.cons_append]
    simp only [containsTok, Bool.or_eq_true]
    rcases h with h | h
    · exact Or.inl (startsWithTok_mono _ _ _ h)
    · exact Or.inr (ih h)

theorem containsTok_prefix_false (tok l r : List Char)
    (h : containsTok tok (l ++ r) = false) : containsTok tok l = false := by
  by_contra hc
  rw [containsTok_mono tok l r (by revert hc; cases containsTok tok l <;> simp)]
    at h
  exact absurd h (by simp)

theorem smsClassify_timeout (d : Nat) (acc : List Char)
    (stream : List (Nat × Char))
    (hok : containsTok okTok (acc ++ procChars d stream) = false)
    (herr : containsTok errorTok (acc ++ procChars d stream) = false) :
    smsClassify d acc stream = SmsOutcome.timeout := by
  induction stream generalizing acc with
  | nil => rfl
  | cons p rest ih =>
    by_cases hlt : p.1 < d
    · rw [procChars_cons_lt _ _ _ _ hlt, List.append_cons] at hok herr
      simp only [smsClassify, hlt, if_pos]
      rw [if_neg, if_neg]
      · exact ih (acc ++ [p.2]) hok herr
      · rw [containsTok_prefix_false _ _ _ herr]
        simp
      · rw [containsTok_prefix_false _ _ _ hok]
        simp
    · simp only [smsClassify, hlt, if_neg]
      simp [hlt]

theorem smsClassify_ok (d : Nat) (acc : List Char)
    (stream : List (Nat × Char))
    (hacc : containsTok okTok acc = false)
    (herr : containsTok errorTok (acc ++ procChars d stream) = false)
    (hok : containsTok okTok (acc ++ procChars d stream) = true) :
    smsClassify d acc stream = SmsOutcome.ok := by
  induction stream generalizing acc with
  | nil =>
    rw [procChars, List.takeWhile_nil, List.map_nil, List.append_nil] at hok
    exact absurd hok (by simp [hacc])
  | cons p rest ih =>
    by_cases hlt : p.1 < d
    · rw [procChars_cons_lt _ _ _ _ hlt, List.append_cons] at hok herr
      by_cases hok' : containsTok okTok (acc ++ [p.2]) = true
      · simp [smsClassify, hlt, hok']
      · simp only [smsClassify, hlt, if_pos]
        rw [if_neg, if_neg]
        · exact ih (acc ++ [p.2]) (by revert hok'; cases containsTok okTok (acc ++ [p.2]) <;> simp) herr hok
        · rw [containsTok_prefix_false _ _ _ herr]
          simp
        · simp [hok']
    · rw [procChars_cons_ge _ _ _ _ hlt, List.append_nil] at hok
      exact absurd hok (by simp [hacc])

/-- Whether an outcome is the `ERROR` classification. -/
def isFailOutcome : SmsOutcome → Bool
  | .fail _ => true
  | _ => false

theorem smsClassify_fail (d : Nat) (acc : List Char)
    (stream : List (Nat × Char))
    (hacc : containsTok errorTok acc = false)
    (hok : containsTok okTok (acc ++ procChars d stream) = false)
    (herr : containsTok errorTok (acc ++ procChars d stream) = true) :
    isFailOutcome (smsClassify d acc stream) = true := by
  induction stream generalizing acc with
  | nil =>
    rw [procChars, List.takeWhile_nil, List.map_nil, List.append_nil] at herr
    exact absurd herr (by simp [hacc])
  | cons p rest ih =>
    by_cases hlt : p.1 < d
    · rw [procChars_cons_lt _ _ _ _ hlt, List.append_cons] at hok herr
      by_cases herr' : containsTok errorTok (acc ++ [p.2]) = true
      · have hokp : containsTok okTok (acc ++ [p.2]) = false :=
          containsTok_prefix_false _ _ _ hok
        simp [smsClassify, hlt, hokp, herr', isFailOutcome]
      · simp only [smsClassify, hlt, if_pos]
        rw [if_neg, if_neg]
        · exact ih (acc ++ [p.2]) (by revert herr'; cases containsTok errorTok (acc ++ [p.2]) <;> simp) hok herr
        · simp [herr']
        · rw [containsTok_prefix_false _ _ _ hok]
          simp
    · rw [procChars_cons_ge _ _ _ _ hlt, List.append_nil] at herr
      exact absurd herr (by simp [hacc])

/-- The response stream `"ERROR"` arriving well before the deadline. -/
def errStream : RespStream :=
  [(0, 'E'), (1, 'R'), (2, 'R'), (3, 'O'), (4, 'R')]

/-- Counterexample to claim C4: a location-update submission answered
`ERROR` logs *two* messaging errors — one in `sendSMS` (`Send failed`) and
one in `sendLocationUpdate` (`Failed to send location update`) — not
exactly one; `totalSMSSent` is unchanged and exactly one submission was
written. -/
theorem c4_counterexample :
    (sendLocationUpdate reasonScheduled 0 [errStream] readyState).1.totalErrors
      = readyState.totalErrors + 2 ∧
    (sendLocationUpdate reasonScheduled 0 [errStream] readyState).1.totalSMSSent
      = readyState.totalSMSSent ∧
    (sendLocationUpdate reasonScheduled 0 [errStream] readyState).1.lastError
      = errTypeSMS ++ sepColon ++ errMsgLocFailed := by
  refine ⟨by decide, by decide, by decide⟩

/-- Claim C4 (amended): for a location-update submission with the modem
ready, the final response is classified within the 15000 ms deadline — a
response containing `OK` (and not `ERROR`) is success and increments
`totalSMSSent` by one; one containing `ERROR` (and not `OK`) is a failure;
deadline expiry with neither token is a timeout — exactly one submission
is written and never retried, and every non-success outcome leaves
`totalSMSSent` unchanged but logs *two* messaging errors (one in the send
primitive, a second in the location-update caller). -/
theorem c4_theorem :
    ∀ (reason : String) (now : Nat) (env : Env) (s : SysState),
    s.gsmReady = true →
    ((smsClassify 15000 [] (popEnv env).1 = SmsOutcome.ok →
        (sendLocationUpdate reason now env s).1.totalSMSSent =
          s.totalSMSSent + 1 ∧
        (sendLocationUpdate reason now env s).1.totalErrors =
          s.totalErrors) ∧
      (smsClassify 15000 [] (popEnv env).1 ≠ SmsOutcome.ok →
        (sendLocationUpdate reason now env s).1.totalSMSSent =
          s.totalSMSSent ∧
        (sendLocationUpdate reason now env s).1.totalErrors =
          s.totalErrors + 2) ∧
      (sendLocationUpdate reason now env s).1.outbox =
        s.outbox ++ [(ADMIN_PHONE, locationMessage s)]) ∧
    (containsTok okTok (procChars 15000 (popEnv env).1) = true →
      containsTok errorTok (procChars 15000 (popEnv env).1) = false →
      smsClassify 15000 [] (popEnv env).1 = SmsOutcome.ok) ∧
    (containsTok errorTok (procChars 15000 (popEnv env).1) = true →
      containsTok okTok (procChars 15000 (popEnv env).1) = false →
      isFailOutcome (smsClassify 15000 [] (popEnv env).1) = true) ∧
    (containsTok okTok (procChars 15000 (popEnv env).1) = false →
      containsTok errorTok (procChars 15000 (popEnv env).1) = false →
      smsClassify 15000 [] (popEnv env).1 = SmsOutcome.timeout) := by
  intro reason now env s h
  refine ⟨⟨?_, ?_, sendLocationUpdate_outbox_ready _ _ _ _ h⟩, ?_, ?_, ?_⟩
  · intro hc
    rw [sendLocationUpdate_totalSMSSent_ready _ _ _ _ h, if_pos hc,
      sendLocationUpdate_totalErrors_ready _ _ _ _ h, if_pos hc]
    exact ⟨rfl, rfl⟩
  · intro hc
    rw [sendLocationUpdate_totalSMSSent_ready _ _ _ _ h, if_neg hc,
      sendLocationUpdate_totalErrors_ready _ _ _ _ h, if_neg hc]
    exact ⟨rfl, rfl⟩
  · intro hok herr
    exact smsClassify_ok 15000 [] (popEnv env).1 (by decide)
      (by rw [List.nil_append]; exact herr) (by rw [List.nil_append]; exact hok)
  · intro herr hok
    exact smsClassify_fail 15000 [] (popEnv env).1 (by decide)
      (by rw [List.nil_append]; exact hok) (by rw [List.nil_append]; exact herr)
  · intro hok herr
    exact smsClassify_timeout 15000 [] (popEnv env).1
      (by rw [List.nil_append]; exact hok) (by rw [List.nil_append]; exact herr)

/-- Witness for claim C4: the amended claim applied to the concrete
`ERROR` response (two errors logged, counter unchanged, one submission)
and its classification conjunct at that response. -/
theorem c4_witness :
    ((sendLocationUpdate reasonScheduled 0 [errStream] readyState).1.totalSMSSent
        = readyState.totalSMSSent ∧
      (sendLocationUpdate reasonScheduled 0 [errStream]
          readyState).1.totalErrors = readyState.totalErrors + 2) ∧
    (sendLocationUpdate reasonScheduled 0 [errStream] readyState).1.outbox =
      readyState.outbox ++ [(ADMIN_PHONE, locationMessage readyState)] ∧
    isFailOutcome (smsClassify 15000 [] (popEnv [errStream]).1) = true := by
  have h := c4_theorem reasonScheduled 0 [errStream] readyState rfl
  exact ⟨h.1.2.1 (by decide), h.1.2.2, h.2.2.1 (by decide) (by decide)⟩

/-- The state after the accept path of `processGPSData` has refreshed the
fix fields, the timestamp and the maximum speed, when a fix was already
held (so no first-fix branch runs). -/
def acceptedState (g : GPSSample) (s : SysState) : SysState :=
  let s2 := { updateFix g s with dateTime := formatDateTime g }
  if s2.speed > (s2.maxSpeed : ℚ) then
    { s2 with maxSpeed := (⌊s2.speed⌋).toNat }
  else s2

theorem processSample_fixed_eq (now : Nat) (g : GPSSample) (env : Env)
    (s : SysState) (hv : isValidGPSData (updateFix g s) = true)
    (hfix : s.gpsFixed = true) :
    processSample now g env s = checkSpeedLimit now env (acceptedState g s) := by
  unfold processSample acceptedState
  rw [if_pos hv]
  dsimp only
  have hg : ({ updateFix g s with dateTime := formatDateTime g } :
      SysState).gpsFixed = true := hfix
  rw [hg]
  simp

theorem acceptedState_speed (g : GPSSample) (s : SysState) :
    (acceptedState g s).speed = g.speedKmh := by
  unfold acceptedState
  dsimp only
  split <;> rfl

theorem acceptedState_lastSpeedAlert (g : GPSSample) (s : SysState) :
    (acceptedState g s).lastSpeedAlert = s.lastSpeedAlert := by
  unfold acceptedState
  dsimp only
  split <;> rfl

theorem acceptedState_outbox (g : GPSSample) (s : SysState) :
    (acceptedState g s).outbox = s.outbox := by
  unfold acceptedState
  dsimp only
  split <;> rfl

theorem acceptedState_gsmReady (g : GPSSample) (s : SysState) :
    (acceptedState g s).gsmReady = s.gsmReady := by
  unfold acceptedState
  dsimp only
  split <;> rfl

theorem acceptedState_gpsFixed (g : GPSSample) (s : SysState) :
    (acceptedState g s).gpsFixed = s.gpsFixed := by
  unfold acceptedState
  dsimp only
  split <;> rfl

theorem isValid_updateFix_congr (g : GPSSample) (s s' : SysState) :
    isValidGPSData (updateFix g s) = isValidGPSData (updateFix g s') := rfl

theorem checkSpeedLimit_fire (now : Nat) (env : Env) (s : SysState)
    (hsp : s.speed > SPEED_LIMIT) (hge : usub now s.lastSpeedAlert ≥ 60000)
    (hready : s.gsmReady = true) :
    (checkSpeedLimit now env s).1.outbox.length = s.outbox.length + 1 ∧
    (checkSpeedLimit now env s).1.lastSpeedAlert = now := by
  unfold checkSpeedLimit
  rw [if_pos hsp, if_pos hge]
  dsimp only
  rw [if_pos (show ({ s with lastSpeedAlert := now } :
    SysState).gsmReady = true from hready)]
  have hready2 : ({ s with lastSpeedAlert := now } : SysState).gsmReady
      = true := hready
  constructor
  · simp [sendSMS_outbox_ready _ _ _ _ _ hready2]
  · simp [sendSMS_snd_lastSpeedAlert]

theorem checkSpeedLimit_nofire_speed (now : Nat) (env : Env) (s : SysState)
    (h : ¬s.speed > SPEED_LIMIT) : checkSpeedLimit now env s = (s, env) := by
  unfold checkSpeedLimit
  rw [if_neg h]

theorem checkSpeedLimit_nofire_window (now : Nat) (env : Env) (s : SysState)
    (hsp : s.speed > SPEED_LIMIT)
    (h : ¬usub now s.lastSpeedAlert ≥ 60000) :
    checkSpeedLimit now env s = (s, env) := by
  unfold checkSpeedLimit
  rw [if_pos hsp, if_neg h]

/-- A fixed, modem-ready state fresh from boot (`lastSpeedAlert = 0`). -/
def fixedReadyState : SysState :=
  { initState with gpsFixed := true, gsmReady := true }

/-- An accepted sample at 100 km/h, over the 80 km/h limit. -/
def fastSample : GPSSample := ⟨12, 77, 900, 100, 6, 1, 5, 3, 2024, 10, 30, 0⟩

/-- Counterexample to claim C7: two accepted over-limit fixes at 1000 ms
and 2000 ms (same 60 s window) produce *zero* speed alerts, not exactly
one — the debounce timestamp initializes to 0, so the whole first minute
after boot is inside an already-running debounce window. -/
theorem c7_counterexample :
    fastSample.speedKmh > SPEED_LIMIT ∧
    isValidGPSData (updateFix fastSample fixedReadyState) = true ∧
    fixedReadyState.gpsFixed = true ∧
    (processSample 2000 fastSample
        (processSample 1000 fastSample [] fixedReadyState).2
        (processSample 1000 fastSample [] fixedReadyState).1).1.outbox.length
      = 0 := by
  refine ⟨by decide, by decide, by decide, by decide⟩

/-- Claim C7 (amended): two accepted over-limit fixes inside the same
rolling 60 s debounce window produce *at most* one speed alert — exactly
one precisely when the window anchored at `lastSpeedAlert` has already
elapsed by the second sample's time (`60000 ≤ t2 − lastSpeedAlert`), and
none otherwise (in particular none during the first 60 s after boot). -/
theorem c7_theorem :
    ∀ (env : Env) (s : SysState) (t1 t2 : Nat) (g1 g2 : GPSSample),
    isValidGPSData (updateFix g1 s) = true →
    isValidGPSData (updateFix g2 s) = true →
    g1.speedKmh > SPEED_LIMIT →
    g2.speedKmh > SPEED_LIMIT →
    s.gpsFixed = true →
    s.gsmReady = true →
    s.lastSpeedAlert ≤ t1 →
    t1 ≤ t2 →
    t2 < u32Mod →
    t2 - t1 < 60000 →
    (processSample t2 g2 (processSample t1 g1 env s).2
        (processSample t1 g1 env s).1).1.outbox.length =
      s.outbox.length + (if 60000 ≤ t2 - s.lastSpeedAlert then 1 else 0) := by
  intro env s t1 t2 g1 g2 hv1 hv2 hs1 hs2 hfix hready hla h12 hlt hwin
  have ht1 : t1 < u32Mod := Nat.lt_of_le_of_lt h12 hlt
  have hu1 : usub t1 s.lastSpeedAlert = t1 - s.lastSpeedAlert :=
    usub_eq_sub _ _ hla ht1
  rw [processSample_fixed_eq t1 g1 env s hv1 hfix]
  have hsp1 : (acceptedState g1 s).speed > SPEED_LIMIT := by
    rw [acceptedState_speed]
    exact hs1
  by_cases hf1 : 60000 ≤ t1 - s.lastSpeedAlert
  · have hge1 : usub t1 (acceptedState g1 s).lastSpeedAlert ≥ 60000 := by
      rw [acceptedState_lastSpeedAlert, hu1]
      exact hf1
    have hr1 : (acceptedState g1 s).gsmReady = true := by
      rw [acceptedState_gsmReady]
      exact hready
    obtain ⟨ho1, hl1⟩ := checkSpeedLimit_fire t1 env (acceptedState g1 s)
      hsp1 hge1 hr1
    have hfix1 : (checkSpeedLimit t1 env (acceptedState g1 s)).1.gpsFixed
        = true := by
      rw [checkSpeedLimit_gpsFixed, acceptedState_gpsFixed]
      exact hfix
    have hv2' : isValidGPSData
        (updateFix g2 (checkSpeedLimit t1 env (acceptedState g1 s)).1)
        = true := by
      rw [isValid_updateFix_congr g2 _ s]
      exact hv2
    rw [processSample_fixed_eq t2 g2 _ _ hv2' hfix1]
    have hsp2 : (acceptedState g2
        (checkSpeedLimit t1 env (acceptedState g1 s)).1).speed
        > SPEED_LIMIT := by
      rw [acceptedState_speed]
      exact hs2
    have hnw : ¬usub t2 (acceptedState g2
        (checkSpeedLimit t1 env (acceptedState g1 s)).1).lastSpeedAlert
        ≥ 60000 := by
      rw [acceptedState_lastSpeedAlert, hl1, usub_eq_sub _ _ h12 hlt]
      omega
    rw [checkSpeedLimit_nofire_window _ _ _ hsp2 hnw]
    have hob : (acceptedState g2
        (checkSpeedLimit t1 env (acceptedState g1 s)).1).outbox =
        (checkSpeedLimit t1 env (acceptedState g1 s)).1.outbox :=
      acceptedState_outbox _ _
    rw [if_pos (by omega)]
    calc (acceptedState g2 (checkSpeedLimit t1 env
            (acceptedState g1 s)).1, (checkSpeedLimit t1 env
            (acceptedState g1 s)).2).1.outbox.length
        = (checkSpeedLimit t1 env (acceptedState g1 s)).1.outbox.length := by
          rw [hob]
      _ = (acceptedState g1 s).outbox.length + 1 := ho1
      _ = s.outbox.length + 1 := by rw [acceptedState_outbox]
  · have hnw1 : ¬usub t1 (acceptedState g1 s).lastSpeedAlert ≥ 60000 := by
      rw [acceptedState_lastSpeedAlert, hu1]
      omega
    rw [checkSpeedLimit_nofire_window _ _ _ hsp1 hnw1]
    have hfix1 : (acceptedState g1 s).gpsFixed = true := by
      rw [acceptedState_gpsFixed]
      exact hfix
    have hv2' : isValidGPSData (updateFix g2 (acceptedState g1 s)) = true := by
      rw [isValid_updateFix_congr g2 _ s]
      exact hv2
    have hrw : ((acceptedState g1 s, env) :
        SysState × Env).1 = acceptedState g1 s := rfl
    rw [hrw, processSample_fixed_eq t2 g2 env _ hv2' hfix1]
    have hsp2 : (acceptedState g2 (acceptedState g1 s)).speed
        > SPEED_LIMIT := by
      rw [acceptedState_speed]
      exact hs2
    by_cases hf2 : 60000 ≤ t2 - s.lastSpeedAlert
    · have hge2 : usub t2 (acceptedState g2
          (acceptedState g1 s)).lastSpeedAlert ≥ 60000 := by
        rw [acceptedState_lastSpeedAlert, acceptedState_lastSpeedAlert,
          usub_eq_sub _ _ (by omega) hlt]
        omega
      have hr2 : (acceptedState g2 (acceptedState g1 s)).gsmReady = true := by
        rw [acceptedState_gsmReady, acceptedState_gsmReady]
        exact hready
      obtain ⟨ho2, _⟩ := checkSpeedLimit_fire t2 env
        (acceptedState g2 (acceptedState g1 s)) hsp2 hge2 hr2
      rw [if_pos hf2, ho2, acceptedState_outbox, acceptedState_outbox]
    · have hnw2 : ¬usub t2 (acceptedState g2
          (acceptedState g1 s)).lastSpeedAlert ≥ 60000 := by
        rw [acceptedState_lastSpeedAlert, acceptedState_lastSpeedAlert,
          usub_eq_sub _ _ (by omega) hlt]
        omega
      rw [checkSpeedLimit_nofire_window _ _ _ hsp2 hnw2, if_neg hf2]
      calc ((acceptedState g2 (acceptedState g1 s), env) :
            SysState × Env).1.outbox.length
          = (acceptedState g2 (acceptedState g1 s)).outbox.length := rfl
        _ = s.outbox.length := by
            rw [acceptedState_outbox, acceptedState_outbox]
        _ = s.outbox.length + 0 := by omega

/-- Witness for claim C7: with the debounce window already elapsed
(`t1 = 60000`), the two over-limit fixes produce exactly one alert. -/
theorem c7_witness :
    (processSample 61000 fastSample
        (processSample 60000 fastSample [] fixedReadyState).2
        (processSample 60000 fastSample [] fixedReadyState).1).1.outbox.length
      = fixedReadyState.outbox.length +
          (if 60000 ≤ 61000 - fixedReadyState.lastSpeedAlert then 1 else 0) :=
  c7_theorem [] fixedReadyState 60000 61000 fastSample fastSample
    (by decide) (by decide) (by decide) (by decide) rfl rfl
    (by decide) (by decide) (by decide) (by decide)

theorem sendHealthAlert_outbox_ready (now : Nat) (env : Env) (s : SysState)
    (h : s.gsmReady = true) :
    (sendHealthAlert now env s).1.outbox =
      s.outbox ++ [(ADMIN_PHONE, healthAlertMessage s),
        (BACKUP_PHONE, healthAlertMessage s)] := by
  unfold sendHealthAlert
  dsimp only
  rw [if_pos (by decide : BACKUP_PHONE.length > 5)]
  have h1 : (sendSMS ADMIN_PHONE (healthAlertMessage s) now env s).2.1.gsmReady
      = true := by
    rw [sendSMS_snd_gsmReady]
    exact h
  rw [sendSMS_outbox_ready _ _ _ _ _ h1, sendSMS_outbox_ready _ _ _ _ _ h]
  simp

@[simp] theorem saveSystemStats_eeprom (s : SysState) :
    (saveSystemStats s).eeprom = (s.totalSMSSent, s.totalErrors, s.maxSpeed) :=
  rfl

@[simp] theorem saveSystemStats_totalSMSSent (s : SysState) :
    (saveSystemStats s).totalSMSSent = s.totalSMSSent := rfl

@[simp] theorem saveSystemStats_totalErrors (s : SysState) :
    (saveSystemStats s).totalErrors = s.totalErrors := rfl

@[simp] theorem saveSystemStats_maxSpeed (s : SysState) :
    (saveSystemStats s).maxSpeed = s.maxSpeed := rfl

@[simp] theorem saveSystemStats_outbox (s : SysState) :
    (saveSystemStats s).outbox = s.outbox := rfl

@[simp] theorem saveSystemStats_systemHealthy (s : SysState) :
    (saveSystemStats s).systemHealthy = s.systemHealthy := rfl

@[simp] theorem saveSystemStats_lastHealthCheck (s : SysState) :
    (saveSystemStats s).lastHealthCheck = s.lastHealthCheck := rfl

theorem sendHealthAlert_systemHealthy (now : Nat) (env : Env) (s : SysState) :
    (sendHealthAlert now env s).1.systemHealthy = s.systemHealthy := by
  unfold sendHealthAlert
  dsimp only
  split <;> simp [sendSMS_snd_systemHealthy]

theorem sendHealthAlert_lastHealthCheck (now : Nat) (env : Env)
    (s : SysState) :
    (sendHealthAlert now env s).1.lastHealthCheck = s.lastHealthCheck := by
  unfold sendHealthAlert
  dsimp only
  split <;> simp [sendSMS_snd_lastHealthCheck]

/-- A modem-ready state without a fix whose health flag is still `true`
(the first unhealthy tick is the transition; later ones are not). -/
def c9s0 : SysState := { initState with gsmReady := true }

/-- The first health tick at 60000 ms (probe answers OK, GPS unhealthy). -/
def c9run1 : SysState × Env :=
  performHealthCheck 60000
    [okStream, okStream, okStream, okStream, okStream, okStream] c9s0

/-- The second health tick at 120000 ms, with the unhealthy state
persisting. -/
def c9run2 : SysState × Env := performHealthCheck 120000 c9run1.2 c9run1.1

/-- Counterexample to claim C9: the health alert is sent on *every*
unhealthy evaluation, not only on the transition — the first tick turns
`systemHealthy` false and submits the two-recipient alert (2 messages),
and the second tick, with no transition (`systemHealthy` already false),
submits it again (4 messages total). -/
theorem c9_counterexample :
    c9run1.1.systemHealthy = false ∧
    c9run1.1.outbox.length = 2 ∧
    c9run2.1.systemHealthy = false ∧
    c9run2.1.outbox.length = 4 := by
  refine ⟨by decide, by decide, by decide, by decide⟩

/-- Claim C9 (amended): on every health tick (60000 ms elapsed) the
overall verdict is recomputed from the two subsystem checks; whenever it
is unhealthy and the modem is ready, the health alert (whose body lists
the failed subsystems and quotes the most recent logged error) is
submitted to the admin and backup numbers — on every such tick, not only
on the transition — independent of `lastSendTime`, which it never touches
(bypassing the report-interval gate); and the statistics triple is
persisted to the EEPROM image after every evaluation. -/
theorem c9_theorem :
    ∀ (now : Nat) (env : Env) (s : SysState),
    usub now s.lastHealthCheck ≥ HEALTH_CHECK_INTERVAL →
    ((performHealthCheck now env s).1.systemHealthy =
      ((s.gpsFixed && decide (s.satellites ≥ MIN_SATELLITES)) &&
        (testGSMConnection env).1)) ∧
    ((performHealthCheck now env s).1.outbox =
      (if (!((s.gpsFixed && decide (s.satellites ≥ MIN_SATELLITES)) &&
            (testGSMConnection env).1) && s.gsmReady) = true then
        s.outbox ++ [(ADMIN_PHONE, healthAlertMessage s),
          (BACKUP_PHONE, healthAlertMessage s)]
      else s.outbox)) ∧
    (performHealthCheck now env s).1.lastSendTime = s.lastSendTime ∧
    (performHealthCheck now env s).1.lastHealthCheck = now ∧
    ((performHealthCheck now env s).1.eeprom =
      ((performHealthCheck now env s).1.totalSMSSent,
        (performHealthCheck now env s).1.totalErrors,
        (performHealthCheck now env s).1.maxSpeed)) ∧
    (∃ pre post : String,
      healthAlertMessage s = pre ++ s.lastError ++ post) := by
  intro now env s h
  unfold performHealthCheck
  rw [if_pos h]
  dsimp only
  constructor
  · split
    · simp [sendHealthAlert_systemHealthy]
    · simp
  refine ⟨?_, ?_, ?_, ?_, ?_⟩
  · split
    · rename_i hcond
      rw [saveSystemStats_outbox, sendHealthAlert_outbox_ready _ _ _
        (by simp only [Bool.and_eq_true] at hcond; exact hcond.2)]
      rfl
    · rfl
  · split
    · simp [sendHealthAlert_lastSendTime]
    · rfl
  · split
    · simp [sendHealthAlert_lastHealthCheck]
    · rfl
  · split <;> simp
  · refine ⟨msgHealthHead ++ msgBusPre ++ BUS_ID ++ strNl ++ msgIssueDetected ++
      (if !s.gpsFixed then msgGpsLostLine else strEmpty) ++
      (if !s.gsmReady then msgGsmLostLine else strEmpty) ++ msgLastErrorPre,
      strNl ++ msgTimePre ++ s.dateTime ++ strNl ++ msgRecovery, ?_⟩
    unfold healthAlertMessage
    simp [String.append_assoc]

/-- Witness for claim C9: the amended claim applied to the concrete
unhealthy tick of `c9_counterexample`. -/
theorem c9_witness :
    (performHealthCheck 60000
        [okStream, okStream, okStream, okStream, okStream, okStream]
        c9s0).1.systemHealthy =
      ((c9s0.gpsFixed && decide (c9s0.satellites ≥ MIN_SATELLITES)) &&
        (testGSMConnection
          [okStream, okStream, okStream, okStream, okStream, okStream]).1) ∧
    (performHealthCheck 60000
        [okStream, okStream, okStream, okStream, okStream, okStream]
        c9s0).1.lastSendTime = c9s0.lastSendTime := by
  have h := c9_theorem 60000
    [okStream, okStream, okStream, okStream, okStream, okStream] c9s0
    (by decide)
  exact ⟨h.1, h.2.2.1⟩
